import Mathlib

/-!
Verification development for the Maine Drain Busters email backend
(`src/index.js`, plus the earlier EmailJS variants of the same service).

The JavaScript code is shallowly embedded: every pure helper of the
source becomes an executable Lean definition, the Express handlers
become pure functions from a request body, the middleware validation
outcome, the outbound-transport behaviour and the ambient clock to a
record of the HTTP response and the list of mail-dispatch calls made.
External collaborators (nodemailer, express-validator, DOMPurify) are
modelled by their documented behaviour where the handlers rely on it;
each such model carries a comment saying exactly what it covers.
-/

namespace MDB

/-- JavaScript whitespace (the `\s` regex class and the set used by
`String.prototype.trim`): space, tab, LF, VT, FF, CR, NBSP and the
Unicode space separators plus line/paragraph separators and BOM. -/
def isJsSpace (c : Char) : Bool :=
  c = ' ' || c = '\t' || c = '\n' || c = Char.ofNat 11 || c = Char.ofNat 12 ||
  c = '\r' || c = Char.ofNat 160 || c = Char.ofNat 0x1680 ||
  (Char.ofNat 0x2000 ≤ c && c ≤ Char.ofNat 0x200a) ||
  c = Char.ofNat 0x2028 || c = Char.ofNat 0x2029 || c = Char.ofNat 0x202f ||
  c = Char.ofNat 0x205f || c = Char.ofNat 0x3000 || c = Char.ofNat 0xfeff

/-- Drop leading JS whitespace. -/
def ltrimL (l : List Char) : List Char := l.dropWhile isJsSpace

/-- Drop trailing JS whitespace. -/
def rtrimL (l : List Char) : List Char := (l.reverse.dropWhile isJsSpace).reverse

/-- JS `String.prototype.trim` / validator.js `trim()`: both ends. -/
def jsTrimL (l : List Char) : List Char := rtrimL (ltrimL l)

/-- String-level JS trim. -/
def jsTrim (s : String) : String := String.mk (jsTrimL s.data)

/-- JS template-literal interpolation of a possibly `undefined` value:
`undefined` prints as the literal text `undefined`. -/
def jsStr (o : Option String) : String :=
  match o with
  | none => "undefined"
  | some s => s

/-- JS `x || d` for a possibly `undefined` string `x`: `undefined` and
the empty string are falsy. -/
def jsOrS (o : Option String) (d : String) : String :=
  match o with
  | none => d
  | some s => if s = "" then d else s

/-- JS truthiness of a possibly `undefined` boolean. -/
def jsTruthyBool (o : Option Bool) : Bool :=
  match o with
  | none => false
  | some b => b

/-- JS `String.prototype.toLowerCase` restricted to the simple
per-character case mapping (sufficient for e-mail addresses). -/
def jsToLower (s : String) : String := String.mk (s.data.map Char.toLower)

/-- JS `Array.prototype.filter(Boolean)` over an array of
string-or-null entries: keeps the non-null, non-empty strings. -/
def filterBoolean (l : List (Option String)) : List String :=
  l.filterMap (fun o =>
    match o with
    | none => none
    | some s => if s = "" then none else some s)

/-- JS `array.filter(Boolean).join(', ')` over plain strings. -/
def joinTruthy (l : List String) : String :=
  String.intercalate (", ") (l.filter (fun s => !(s = "")))

/-! ## Input validation functions (src/index.js lines 94-108) -/

/-- Whether a dot occurs strictly inside `l` (not first, not last). -/
def hasInteriorDot (l : List Char) : Bool :=
  ((l.drop 1).dropLast).contains ('.')

/-- The function `validateEmail` (src/index.js line 95): tests the anchored regex
pattern that accepts exactly the strings of the form `A@B.C` with `A`,
`B`, `C` nonempty and free of whitespace and further at-signs (the
character class excludes whitespace and the at-sign; `B` and `C` may
contain further dots).  Equivalent executable form: no whitespace
anywhere, exactly one at-sign with a nonempty local part, and a dot
strictly inside the domain part (when the split below is nonempty its
head is necessarily the at-sign, hence the wildcard). -/
def validateEmail (s : String) : Bool :=
  let pre := s.data.takeWhile (fun c => !(c == '@'))
  match s.data.dropWhile (fun c => !(c == '@')) with
  | _ :: dom =>
    !pre.isEmpty && pre.all (fun c => !isJsSpace c) &&
    dom.all (fun c => !isJsSpace c && !(c == '@')) &&
    hasInteriorDot dom
  | [] => false

/-- The characters removed by `validateName`'s regex `[\r\n:;,]`. -/
def isNameStripped (c : Char) : Bool :=
  c = '\r' || c = '\n' || c = ':' || c = ';' || c = ','

/-- The function `validateName` (src/index.js line 100):
`name.replace(/[\r\n:;,]/g, '').trim()`. -/
def validateName (s : String) : String :=
  jsTrim (String.mk (s.data.filter (fun c => !isNameStripped c)))

/-! ## The validator.js sanitizers used by the express-validator
middleware chains (`.trim()` and `.escape()` on lines 1009-1025 and
1152-1158 of src/index.js).  validator.js `escape` is the sequence of
global replaces sending the ampersand to the amp entity, then the
double quote, apostrophe, angle brackets, slash, backslash and
backtick to their entities; since no replacement string contains a
later target character, the sequence equals this single character
map. -/

/-- Per-character action of validator.js `escape`. -/
def escChar (c : Char) : List Char :=
  if c = '&' then ("&amp;").data
  else if c = '"' then ("&quot;").data
  else if c = Char.ofNat 39 then ("&#x27;").data
  else if c = '<' then ("&lt;").data
  else if c = '>' then ("&gt;").data
  else if c = '/' then ("&#x2F;").data
  else if c = '\\' then ("&#x5C;").data
  else if c = Char.ofNat 96 then ("&#96;").data
  else [c]

/-- validator.js `escape` (the `.escape()` middleware sanitizer). -/
def escapeV (s : String) : String := String.mk (s.data.flatMap escChar)

/-! ## `sanitizeInput` (src/index.js line 105): DOMPurify with
`ALLOWED_TAGS: []`, `ALLOWED_ATTR: []`.

Model of the external DOMPurify/JSDOM pipeline restricted to inputs
without markup (no tags and no comments), which is the only domain the
theorems below exercise: the HTML parser first normalizes CR and CRLF
to LF, a tag-free fragment parses to a single text node with character
references decoded, and re-serializing that text node escapes the
ampersand, the angle brackets and the no-break space.  Reference
decoding is restricted to the semicolon-terminated references that
`escape` itself produces plus the basic named ones; semicolonless
legacy references are not modelled (none of the strings reaching
`sanitizeInput` in this development contains one). -/

/-- HTML input-stream preprocessing: CRLF and lone CR become LF. -/
def normalizeCR : List Char → List Char
  | [] => []
  | '\r' :: '\n' :: rest => '\n' :: normalizeCR rest
  | '\r' :: rest => '\n' :: normalizeCR rest
  | c :: rest => c :: normalizeCR rest

/-- Does `p` occur as a prefix of `l`? -/
def startsWithL : List Char → List Char → Bool
  | [], _ => true
  | _ :: _, [] => false
  | p :: ps, c :: cs => p = c && startsWithL ps cs

/-- The nine semicolon-terminated references handled here, each with
its decoded character. -/
def refTable : List (List Char × Char) :=
  [(("amp;").data, '&'), (("lt;").data, '<'), (("gt;").data, '>'),
   (("quot;").data, '"'), (("nbsp;").data, Char.ofNat 160),
   (("#x27;").data, Char.ofNat 39), (("#x2F;").data, '/'),
   (("#x5C;").data, '\\'), (("#96;").data, Char.ofNat 96)]

/-- Try to read one character reference at the head of `l`, returning
the decoded character and the number of characters consumed. -/
def matchRef (l : List Char) : Option (Char × Nat) :=
  refTable.findSome? (fun e =>
    if startsWithL e.1 l then some (e.2, e.1.length) else none)

/-- Character-reference decoding, fuelled for structural recursion:
each step consumes at least one character, so starting the fuel at the
list length (see `decodeRefs`) never exhausts it and the function
computes the natural recursion on the list. -/
def decodeRefsF : Nat → List Char → List Char
  | _, [] => []
  | 0, l => l
  | fuel + 1, c :: rest =>
    if c = '&' then
      match matchRef rest with
      | some (d, n) => d :: decodeRefsF fuel (rest.drop n)
      | none => '&' :: decodeRefsF fuel rest
    else c :: decodeRefsF fuel rest

/-- Character-reference decoding for the references relevant here. -/
def decodeRefs (l : List Char) : List Char := decodeRefsF l.length l

/-- Text-node serialization: escape ampersand, angle brackets, NBSP. -/
def encChar (c : Char) : List Char :=
  if c = '&' then ("&amp;").data
  else if c = '<' then ("&lt;").data
  else if c = '>' then ("&gt;").data
  else if c = Char.ofNat 160 then ("&nbsp;").data
  else [c]

/-- The function `sanitizeInput` on markup-free input: parse (normalize newlines,
decode references) and re-serialize the resulting text node. -/
def sanitizeInput (s : String) : String :=
  String.mk ((decodeRefs (normalizeCR s.data)).flatMap encChar)

/-- The full sanitization pipeline a free-text field goes through on
its way into a mail header: the middleware's `.trim().escape()`, the
handler's `sanitizeInput`, then `validateName`. -/
def sanitizePipeline (s : String) : String :=
  validateName (sanitizeInput (escapeV (jsTrim s)))

/-- The characters validator.js `escape` rewrites. -/
def escTargets : List Char :=
  ['&', '"', Char.ofNat 39, '<', '>', '/', '\\', Char.ofNat 96]

/-- Is `c` rewritten by `escape`? -/
def escTarget (c : Char) : Bool := escTargets.contains c

/-- The characters the text-node serializer escapes. -/
def encTargets : List Char := ['&', '<', '>', Char.ofNat 160]

/-- Is `c` escaped by the serializer? -/
def encTarget (c : Char) : Bool := encTargets.contains c

/-- The characters some stage of the pipeline can rewrite: the escape
targets plus the carriage return (newline normalization) and the
no-break space (serializer). -/
def sanitizerSensitive (c : Char) : Bool :=
  ['&', '"', Char.ofNat 39, '<', '>', '/', '\\', Char.ofNat 96,
   '\r', Char.ofNat 160].contains c

/-! ## Dates and email templates (src/index.js lines 128-975, 1256-1462)

Each `new Date()` in the source is a clock read; a `JsDate` value
records the projections the templates actually use (ISO string, locale
string, year) alongside the epoch milliseconds, and rendering receives
the clock value explicitly. -/

/-- A JavaScript `Date` value, by the projections used in this code. -/
structure JsDate where
  isoString : String
  localeString : String
  year : Nat
  epochMillis : Nat
deriving DecidableEq, Repr

/-- JS `new Date().toISOString().slice(0,10)` with the dashes removed by
the global regex replace. -/
def isoSlug (d : JsDate) : String := (d.isoString.take 10).replace ("-") ("")

/-- JS `new Date(submissionTime || Date.now())` followed by
`.toLocaleString()` happens on the date itself; a `Date` object is
always truthy, so `undefined` falls back to the current clock. -/
def jsOrDate (o : Option JsDate) (now : JsDate) : JsDate :=
  match o with
  | none => now
  | some d => d

/-- The urgency badge class chain of the company template:
`urgency === 'Urgent' ? 'status-urgent' : ... : 'status-low'`
(`undefined === s` is false for every string `s`). -/
def urgencyClass (u : Option String) : String :=
  if u = some ("Urgent") then "status-urgent"
  else if u = some ("High") then "status-high"
  else if u = some ("Medium") then "status-medium"
  else "status-low"

/-- The promotional-deal cell:
`discount_claimed ? \x60Claimed ($${dealAmount})\x60 : 'Not claimed'`. -/
def discountSlot (claimed : Option Bool) (dealAmount : Option String) : String :=
  if jsTruthyBool claimed then "Claimed ($" ++ jsStr dealAmount ++ ")"
  else "Not claimed"

/-- Destructured parameter of `createCompanyEmailTemplate`. -/
structure CompanyArgs where
  name : Option String
  email : Option String
  phone : Option String
  address : Option String
  serviceType : Option String
  urgency : Option String
  message : Option String
  preferredDate : Option String
  preferredTime : Option String
  discount_claimed : Option Bool
  dealAmount : Option String
deriving DecidableEq, Repr

/-- Destructured parameter of `createCompanySupportTemplate`. -/
structure SupportTplArgs where
  name : Option String
  email : Option String
  phone : Option String
  message : Option String
  subject : Option String
deriving DecidableEq, Repr

/-- Destructured parameter of `createConfirmationEmail`. -/
structure ConfirmArgs where
  name : Option String
  serviceType : Option String
  phone : Option String
  preferredDate : Option String
  preferredTime : Option String
  submissionTime : Option JsDate
deriving DecidableEq, Repr

/-- Destructured parameter of `createSupportConfirmation`. -/
structure SupConfArgs where
  name : Option String
  email : Option String
  phone : Option String
  subject : Option String
  message : Option String
  submissionTime : Option JsDate
deriving DecidableEq, Repr


/-- Literal segment 0 of the createCompanyEmailTemplate template. -/
def cp0 : String := "<!DOCTYPE html>\n<html lang=\"en\">\n<head>\n    <meta charset=\"UTF-8\">\n    <meta name=\"viewport\" content=\"width=device-width, initial-scale=1.0\">\n    <title>New Service Request</title>\n    <style>\n        /* Base Styles */\n        * \x7b\n            margin: 0;\n            padding: 0;\n            box-sizing: border-box;\n        \x7d\n        body \x7b\n            font-family: -apple-system, BlinkMacSystemFont, \x27Segoe UI\x27, Roboto, Helvetica, Arial, sans-serif;\n            background-color: #f4f4f4;\n            line-height: 1.5;\n            color: #333333;\n        \x7d\n        /* Responsive Styles */\n        .wrapper \x7b\n            max-width: 750px;\n            margin: 0 auto;\n        \x7d\n        .container \x7b\n            background-color: #ffffff;\n            border-radius: 8px;\n            overflow: hidden;\n            box-shadow: 0 4px 10px rgba(0,0,0,0.1);\n        \x7d\n        .header \x7b\n            background-color: #092158;\n            padding: 25px 20px;\n            text-align: center;\n            border-bottom: 4px solid rgb(255, 222, 6);\n            position: relative;\n        \x7d\n        .header h1 \x7b\n            color: rgb(255, 255, 253);\n            font-size: 24px;\n            margin: 0;\n        \x7d\n        .header p \x7b\n            color: rgb(255, 222, 6);\n            font-size: 16px;\n            margin: 5px 0 0;\n        \x7d\n        .content \x7b\n            padding: 30px;\n        \x7d\n        .alert-bar \x7b\n            background-color: #dc3545;\n            color: white;\n            padding: 10px 15px;\n            font-weight: bold;\n            text-align: center;\n            margin-bottom: 25px;\n            border-radius: 4px;\n        \x7d\n        .summary-box \x7b\n            background-color: rgb(255, 222, 6, 0.15);\n            border-left: 5px solid rgb(255, 222, 6);\n            padding: 15px;\n            margin-bottom: 25px;\n            border-radius: 0 4px 4px 0;\n        \x7d\n        .summary-box h2 \x7b\n            color: #092158;\n            font-size: 18px;\n            margin-bottom: 10px;\n        \x7d\n        .summary-box p \x7b\n            color: #333333;\n            font-size: 15px;\n        \x7d\n        .status-badge \x7b\n            display: inline-block;\n            background-color: #6c757d;\n            color: white;\n            padding: 5px 12px;\n            border-radius: 50px;\n            font-weight: bold;\n            font-size: 12px;\n            margin: 0 0 0 10px;\n            vertical-align: middle;\n        \x7d\n        .status-urgent \x7b\n            background-color: #dc3545;\n        \x7d\n        .status-high \x7b\n            background-color: #fd7e14;\n        \x7d\n        .status-medium \x7b\n            background-color: #ffc107;\n            color: #212529;\n        \x7d\n        .status-low \x7b\n            background-color: #28a745;\n        \x7d\n        .data-section \x7b\n            margin: 30px 0;\n        \x7d\n        .section-header \x7b\n            background-color: #092158;\n            color: white;\n            padding: 12px 15px;\n            font-size: 16px;\n            font-weight: bold;\n            border-radius: 6px 6px 0 0;\n            margin-bottom: 0;\n        \x7d\n        .data-table \x7b\n            width: 100%;\n            border-collapse: collapse;\n            margin: 0 0 25px 0;\n            box-shadow: 0 2px 5px rgba(0,0,0,0.1);\n            border: 1px solid #dee2e6;\n            border-top: none;\n            border-radius: 0 0 6px 6px;\n            overflow: hidden;\n        \x7d\n        .data-table th, \n        .data-table td \x7b\n            padding: 12px 15px;\n            text-align: left;\n            border-bottom: 1px solid #dee2e6;\n        \x7d\n        .data-table th \x7b\n            background-color: #f8f9fa;\n            font-weight: 600;\n            color: #092158;\n            width: 35%;\n        \x7d\n        .data-table tr:last-child th,\n        .data-table tr:last-child td \x7b\n            border-bottom: none;\n        \x7d\n        .data-table td \x7b\n            background-color: white;\n        \x7d\n        .data-table tr:nth-child(even) td \x7b\n            background-color: #f8f9fa;\n        \x7d\n        .data-value \x7b\n            font-weight: 500;\n        \x7d\n        .timestamp-box \x7b\n            background-color: #f8f9fa;\n            border: 1px solid #dee2e6;\n            border-radius: 6px;\n            padding: 12px 15px;\n            margin: 25px 0;\n            color: #666;\n            font-size: 14px;\n            text-align: center;\n        \x7d\n        .message-box \x7b\n            background-color: #f8f9fa;\n            border: 1px solid #dee2e6;\n            border-left: 4px solid #092158;\n            border-radius: 0 6px 6px 0;\n            padding: 15px;\n            margin: 20px 0;\n        \x7d\n        .message-box h3 \x7b\n            color: #092158;\n            font-size: 16px;\n            margin-bottom: 10px;\n        \x7d\n        .message-content \x7b\n            background-color: white;\n            padding: 15px;\n            border-radius: 4px;\n            border: 1px solid #e9ecef;\n            font-style: italic;\n            color: #333;\n        \x7d\n        .action-section \x7b\n            background-color: #f8f9fa;\n            border-radius: 6px;\n            padding: 20px;\n            margin: 25px 0;\n            text-align: center;\n        \x7d\n        .action-title \x7b\n            color: #092158;\n            font-weight: bold;\n            margin-bottom: 15px;\n        \x7d\n        .action-buttons \x7b\n            display: flex;\n            justify-content: center;\n            flex-wrap: wrap;\n            gap: 10px;\n        \x7d\n        .btn \x7b\n            display: inline-block;\n            padding: 10px 15px;\n            background-color: #092158;\n            color: white;\n            text-decoration: none;\n            border-radius: 4px;\n            font-weight: 500;\n            min-width: 120px;\n            text-align: center;\n        \x7d\n        .btn-primary \x7b\n            background-color: rgb(255, 222, 6);\n            color: #092158;\n        \x7d\n        .meta-info \x7b\n            background-color: #f1f3f9;\n            border-radius: 6px;\n            padding: 15px;\n            margin: 25px 0 15px 0;\n        \x7d\n        .meta-title \x7b\n            color: #092158;\n            font-size: 14px;\n            font-weight: bold;\n            margin-bottom: 10px;\n        \x7d\n        .meta-row \x7b\n            display: flex;\n            font-size: 13px;\n            margin-bottom: 5px;\n        \x7d\n        .meta-label \x7b\n            min-width: 120px;\n            color: #666;\n        \x7d\n        .meta-value \x7b\n            color: #333;\n        \x7d\n        .footer \x7b\n            background-color: #092158;\n            padding: 20px;\n            text-align: center;\n            border-radius: 0 0 8px 8px;\n        \x7d\n        .footer p \x7b\n            margin: 5px 0;\n            font-size: 14px;\n            color: rgb(255, 255, 253);\n        \x7d\n        .footer .highlight \x7b\n            color: rgb(255, 222, 6);\n        \x7d\n        \n        /* Responsive adjustments */\n        @media screen and (max-width: 767px) \x7b\n            .wrapper \x7b\n                width: 100%;\n                padding: 10px;\n            \x7d\n            .content \x7b\n                padding: 20px;\n            \x7d\n            .data-table th, \n            .data-table td \x7b\n                display: block;\n                width: 100%;\n            \x7d\n            .data-table th \x7b\n                border-bottom: none;\n                padding-bottom: 5px;\n            \x7d\n            .data-table td \x7b\n                padding-top: 5px;\n                border-bottom: 1px solid #dee2e6;\n            \x7d\n            .data-table tr:last-child td \x7b\n                border-bottom: none;\n            \x7d\n            .action-buttons \x7b\n                flex-direction: column;\n            \x7d\n            .btn \x7b\n                width: 100%;\n            \x7d\n        \x7d\n    </style>\n</head>\n<body>\n    <div class=\"wrapper\">\n        <div class=\"container\">\n            <!-- Header -->\n            <div class=\"header\">\n                <h1>NEW SERVICE REQUEST</h1>\n                <p>Client Service Notification</p>\n            </div>\n            \n            <!-- Content -->\n            <div class=\"content\">\n                <div class=\"summary-box\">\n                    <h2>Service Request from "

/-- Literal segment 1 of the createCompanyEmailTemplate template. -/
def cp1 : String := " <span class=\"status-badge "

/-- Literal segment 2 of the createCompanyEmailTemplate template. -/
def cp2 : String := "\">NEW</span></h2>\n                    <p><strong>"

/-- Literal segment 3 of the createCompanyEmailTemplate template. -/
def cp3 : String := "</strong> service requested for "

/-- Literal segment 4 of the createCompanyEmailTemplate template. -/
def cp4 : String := " ("

/-- Literal segment 5 of the createCompanyEmailTemplate template. -/
def cp5 : String := ") - <strong>Urgency: "

/-- Literal segment 6 of the createCompanyEmailTemplate template. -/
def cp6 : String := "</strong></p>\n                </div>\n\n                <div class=\"data-section\">\n                    <div class=\"section-header\">Client Information</div>\n                    <table class=\"data-table\">\n                        <tr>\n                            <th>Full Name</th>\n                            <td class=\"data-value\">"

/-- Literal segment 7 of the createCompanyEmailTemplate template. -/
def cp7 : String := "</td>\n                        </tr>\n                        <tr>\n                            <th>Phone Number</th>\n                            <td class=\"data-value\">"

/-- Literal segment 8 of the createCompanyEmailTemplate template. -/
def cp8 : String := "</td>\n                        </tr>\n                        <tr>\n                            <th>Email Address</th>\n                            <td class=\"data-value\">"

/-- Literal segment 9 of the createCompanyEmailTemplate template. -/
def cp9 : String := "</td>\n                        </tr>\n                        <tr>\n                            <th>Service Address</th>\n                            <td class=\"data-value\">"

/-- Literal segment 10 of the createCompanyEmailTemplate template. -/
def cp10 : String := "</td>\n                        </tr>\n                    </table>\n                </div>\n                \n                <div class=\"data-section\">\n                    <div class=\"section-header\">Service Details</div>\n                    <table class=\"data-table\">\n                        <tr>\n                            <th>Service Type</th>\n                            <td class=\"data-value\">"

/-- Literal segment 11 of the createCompanyEmailTemplate template. -/
def cp11 : String := "</td>\n                        </tr>\n                        <tr>\n                            <th>Urgency Level</th>\n                            <td class=\"data-value\">"

/-- Literal segment 12 of the createCompanyEmailTemplate template. -/
def cp12 : String := "</td>\n                        </tr>\n                        <tr>\n                            <th>Preferred Date</th>\n                            <td class=\"data-value\">"

/-- Literal segment 13 of the createCompanyEmailTemplate template. -/
def cp13 : String := "</td>\n                        </tr>\n                        <tr>\n                            <th>Preferred Time</th>\n                            <td class=\"data-value\">"

/-- Literal segment 14 of the createCompanyEmailTemplate template. -/
def cp14 : String := "</td>\n                        </tr>\n                        <tr>\n                            <th>Promotional Deal</th>\n                            <td class=\"data-value\">"

/-- Literal segment 15 of the createCompanyEmailTemplate template. -/
def cp15 : String := "</td>\n                        </tr>\n                    </table>\n                </div>\n                \n                <div class=\"message-box\">\n                    <h3>Client Message</h3>\n                    <div class=\"message-content\">\n                        <p>"

/-- Literal segment 16 of the createCompanyEmailTemplate template. -/
def cp16 : String := "</p>\n                    </div>\n                </div>\n                \n                <div class=\"timestamp-box\">\n                    <strong>Request ID:</strong> REQ-"

/-- Literal segment 17 of the createCompanyEmailTemplate template. -/
def cp17 : String := "-001 | \n                    <strong>Submitted:</strong> "

/-- Literal segment 18 of the createCompanyEmailTemplate template. -/
def cp18 : String := "\n                </div>\n            </div>\n            \n            <!-- Footer -->\n            <div class=\"footer\">\n                <p class=\"highlight\">Maine Drain Busters - Internal Service Management</p>\n                <p>This email was sent to the Service Management Team</p>\n                <p>© "

/-- Literal segment 19 of the createCompanyEmailTemplate template. -/
def cp19 : String := " Maine Drain Busters</p>\n            </div>\n        </div>\n    </div>\n</body>\n</html>"

/-- The renderer `createCompanyEmailTemplate` (src/index.js line 129): the business
notification body for a service request.  The clock reads
(`new Date()` for the request id, the submitted line and the footer
year) are made explicit through the `now` parameter.  Note the phone,
email, address and message slots interpolate the raw value (so a
missing phone renders as the text `undefined`), while service type,
urgency, date and time slots carry `||` fallbacks. -/
def createCompanyEmailTemplate (f : CompanyArgs) (now : JsDate) : String :=
  cp0 ++
  jsStr f.name ++
  cp1 ++
  urgencyClass f.urgency ++
  cp2 ++
  jsOrS f.serviceType ("General Service") ++
  cp3 ++
  jsOrS f.preferredDate ("Flexible date") ++
  cp4 ++
  jsOrS f.preferredTime ("Flexible time") ++
  cp5 ++
  jsOrS f.urgency ("Standard") ++
  cp6 ++
  jsStr f.name ++
  cp7 ++
  jsStr f.phone ++
  cp8 ++
  jsStr f.email ++
  cp9 ++
  jsStr f.address ++
  cp10 ++
  jsOrS f.serviceType ("General Service") ++
  cp11 ++
  jsOrS f.urgency ("Standard") ++
  cp12 ++
  jsOrS f.preferredDate ("Not specified") ++
  cp13 ++
  jsOrS f.preferredTime ("Not specified") ++
  cp14 ++
  discountSlot f.discount_claimed f.dealAmount ++
  cp15 ++
  jsStr f.message ++
  cp16 ++
  isoSlug now ++
  cp17 ++
  now.localeString ++
  cp18 ++
  toString now.year ++
  cp19

/-- Literal segment 0 of the createCompanySupportTemplate template. -/
def cs0 : String := "<!DOCTYPE html>\n<html lang=\"en\">\n<head>\n    <meta charset=\"UTF-8\">\n    <meta name=\"viewport\" content=\"width=device-width, initial-scale=1.0\">\n    <title>New Support Request</title>\n    <style>\n        /* Base Styles */\n        * \x7b\n            margin: 0;\n            padding: 0;\n            box-sizing: border-box;\n        \x7d\n        body \x7b\n            font-family: -apple-system, BlinkMacSystemFont, \x27Segoe UI\x27, Roboto, Helvetica, Arial, sans-serif;\n            background-color: #f4f4f4;\n            line-height: 1.5;\n            color: #333333;\n        \x7d\n        /* Responsive Styles */\n        .wrapper \x7b\n            max-width: 750px;\n            margin: 0 auto;\n        \x7d\n        .container \x7b\n            background-color: #ffffff;\n            border-radius: 8px;\n            overflow: hidden;\n            box-shadow: 0 4px 10px rgba(0,0,0,0.1);\n        \x7d\n        .header \x7b\n            background-color: #092158;\n            padding: 25px 20px;\n            text-align: center;\n            border-bottom: 4px solid rgb(255, 222, 6);\n            position: relative;\n        \x7d\n        .header h1 \x7b\n            color: rgb(255, 255, 253);\n            font-size: 24px;\n            margin: 0;\n        \x7d\n        .header p \x7b\n            color: rgb(255, 222, 6);\n            font-size: 16px;\n            margin: 5px 0 0;\n        \x7d\n        .content \x7b\n            padding: 30px;\n        \x7d\n        .summary-box \x7b\n            background-color: rgb(255, 222, 6, 0.15);\n            border-left: 5px solid rgb(255, 222, 6);\n            padding: 15px;\n            margin-bottom: 25px;\n            border-radius: 0 4px 4px 0;\n        \x7d\n        .summary-box h2 \x7b\n            color: #092158;\n            font-size: 18px;\n            margin-bottom: 10px;\n        \x7d\n        .summary-box p \x7b\n            color: #333333;\n            font-size: 15px;\n        \x7d\n        .status-badge \x7b\n            display: inline-block;\n            background-color: #6c757d;\n            color: white;\n            padding: 5px 12px;\n            border-radius: 50px;\n            font-weight: bold;\n            font-size: 12px;\n            margin: 0 0 0 10px;\n            vertical-align: middle;\n        \x7d\n        .status-support \x7b\n            background-color: #0d6efd;\n        \x7d\n        .data-section \x7b\n            margin: 30px 0;\n        \x7d\n        .section-header \x7b\n            background-color: #092158;\n            color: white;\n            padding: 12px 15px;\n            font-size: 16px;\n            font-weight: bold;\n            border-radius: 6px 6px 0 0;\n            margin-bottom: 0;\n        \x7d\n        .data-table \x7b\n            width: 100%;\n            border-collapse: collapse;\n            margin: 0 0 25px 0;\n            box-shadow: 0 2px 5px rgba(0,0,0,0.1);\n            border: 1px solid #dee2e6;\n            border-top: none;\n            border-radius: 0 0 6px 6px;\n            overflow: hidden;\n        \x7d\n        .data-table th, \n        .data-table td \x7b\n            padding: 12px 15px;\n            text-align: left;\n            border-bottom: 1px solid #dee2e6;\n        \x7d\n        .data-table th \x7b\n            background-color: #f8f9fa;\n            font-weight: 600;\n            color: #092158;\n            width: 35%;\n        \x7d\n        .data-table tr:last-child th,\n        .data-table tr:last-child td \x7b\n            border-bottom: none;\n        \x7d\n        .data-table td \x7b\n            background-color: white;\n        \x7d\n        .data-table tr:nth-child(even) td \x7b\n            background-color: #f8f9fa;\n        \x7d\n        .data-value \x7b\n            font-weight: 500;\n        \x7d\n        .timestamp-box \x7b\n            background-color: #f8f9fa;\n            border: 1px solid #dee2e6;\n            border-radius: 6px;\n            padding: 12px 15px;\n            margin: 25px 0;\n            color: #666;\n            font-size: 14px;\n            text-align: center;\n        \x7d\n        .message-box \x7b\n            background-color: #f8f9fa;\n            border: 1px solid #dee2e6;\n            border-left: 4px solid #0d6efd;\n            border-radius: 0 6px 6px 0;\n            padding: 15px;\n            margin: 20px 0;\n        \x7d\n        .message-box h3 \x7b\n            color: #092158;\n            font-size: 16px;\n            margin-bottom: 10px;\n        \x7d\n        .message-content \x7b\n            background-color: white;\n            padding: 15px;\n            border-radius: 4px;\n            border: 1px solid #e9ecef;\n            font-style: italic;\n            color: #333;\n        \x7d\n        .footer \x7b\n            background-color: #092158;\n            padding: 20px;\n            text-align: center;\n            border-radius: 0 0 8px 8px;\n        \x7d\n        .footer p \x7b\n            margin: 5px 0;\n            font-size: 14px;\n            color: rgb(255, 255, 253);\n        \x7d\n        .footer .highlight \x7b\n            color: rgb(255, 222, 6);\n        \x7d\n        \n        /* Responsive adjustments */\n        @media screen and (max-width: 767px) \x7b\n            .wrapper \x7b\n                width: 100%;\n                padding: 10px;\n            \x7d\n            .content \x7b\n                padding: 20px;\n            \x7d\n            .data-table th, \n            .data-table td \x7b\n                display: block;\n                width: 100%;\n            \x7d\n            .data-table th \x7b\n                border-bottom: none;\n                padding-bottom: 5px;\n            \x7d\n            .data-table td \x7b\n                padding-top: 5px;\n                border-bottom: 1px solid #dee2e6;\n            \x7d\n            .data-table tr:last-child td \x7b\n                border-bottom: none;\n            \x7d\n        \x7d\n    </style>\n</head>\n<body>\n    <div class=\"wrapper\">\n        <div class=\"container\">\n            <!-- Header -->\n            <div class=\"header\">\n                <h1>NEW SUPPORT REQUEST</h1>\n                <p>Customer Support Notification</p>\n            </div>\n            \n            <!-- Content -->\n            <div class=\"content\">\n                <div class=\"summary-box\">\n                    <h2>Support Request from "

/-- Literal segment 1 of the createCompanySupportTemplate template. -/
def cs1 : String := " <span class=\"status-badge status-support\">SUPPORT</span></h2>\n                    <p><strong>Subject:</strong> "

/-- Literal segment 2 of the createCompanySupportTemplate template. -/
def cs2 : String := "</p>\n                </div>\n\n                <div class=\"data-section\">\n                    <div class=\"section-header\">Contact Information</div>\n                    <table class=\"data-table\">\n                        <tr>\n                            <th>Full Name</th>\n                            <td class=\"data-value\">"

/-- Literal segment 3 of the createCompanySupportTemplate template. -/
def cs3 : String := "</td>\n                        </tr>\n                        <tr>\n                            <th>Email Address</th>\n                            <td class=\"data-value\">"

/-- Literal segment 4 of the createCompanySupportTemplate template. -/
def cs4 : String := "</td>\n                        </tr>\n                        <tr>\n                            <th>Phone Number</th>\n                            <td class=\"data-value\">"

/-- Literal segment 5 of the createCompanySupportTemplate template. -/
def cs5 : String := "</td>\n                        </tr>\n                        <tr>\n                            <th>Submitted</th>\n                            <td class=\"data-value\">"

/-- Literal segment 6 of the createCompanySupportTemplate template. -/
def cs6 : String := "</td>\n                        </tr>\n                    </table>\n                </div>\n                \n                <div class=\"message-box\">\n                    <h3>Support Message</h3>\n                    <div class=\"message-content\">\n                        <p>"

/-- Literal segment 7 of the createCompanySupportTemplate template. -/
def cs7 : String := "</p>\n                    </div>\n                </div>\n            </div>\n            \n            <!-- Footer -->\n            <div class=\"footer\">\n                <p class=\"highlight\">Maine Drain Busters - Internal Support System</p>\n                <p>This email was sent to the Customer Support Team</p>\n                <p>© "

/-- Literal segment 8 of the createCompanySupportTemplate template. -/
def cs8 : String := " Maine Drain Busters</p>\n            </div>\n        </div>\n    </div>\n</body>\n</html>"

/-- The renderer `createCompanySupportTemplate` (src/index.js line 503): the
business notification body for a support request. -/
def createCompanySupportTemplate (f : SupportTplArgs) (now : JsDate) : String :=
  cs0 ++
  jsStr f.name ++
  cs1 ++
  jsOrS f.subject ("General Support") ++
  cs2 ++
  jsStr f.name ++
  cs3 ++
  jsStr f.email ++
  cs4 ++
  jsOrS f.phone ("Not provided") ++
  cs5 ++
  now.localeString ++
  cs6 ++
  jsStr f.message ++
  cs7 ++
  toString now.year ++
  cs8

/-- Literal segment 0 of the createConfirmationEmail template. -/
def cf0 : String := "<!DOCTYPE html>\n<html lang=\"en\">\n<head>\n    <meta charset=\"UTF-8\">\n    <meta name=\"viewport\" content=\"width=device-width, initial-scale=1.0\">\n    <title>Service Request Confirmation</title>\n    <style>\n        /* Base Styles */\n        * \x7b\n            margin: 0;\n            padding: 0;\n            box-sizing: border-box;\n        \x7d\n        body \x7b\n            font-family: -apple-system, BlinkMacSystemFont, \x27Segoe UI\x27, Roboto, Helvetica, Arial, sans-serif;\n            background-color: #f4f4f4;\n            line-height: 1.5;\n            color: #333333;\n        \x7d\n        /* Responsive Styles */\n        .wrapper \x7b\n            max-width: 600px;\n            margin: 0 auto;\n        \x7d\n        .container \x7b\n            background-color: #ffffff;\n            border-radius: 8px;\n            overflow: hidden;\n            box-shadow: 0 4px 10px rgba(0,0,0,0.1);\n        \x7d\n        .header \x7b\n            background-color: #092158;\n            padding: 25px 20px;\n            text-align: center;\n            border-bottom: 4px solid rgb(255, 222, 6);\n        \x7d\n        .header h1 \x7b\n            color: rgb(255, 255, 253);\n            font-size: 22px;\n            margin: 0;\n        \x7d\n        .header p \x7b\n            color: rgb(255, 222, 6);\n            font-size: 16px;\n            margin: 5px 0 0;\n        \x7d\n        .content \x7b\n            padding: 30px;\n        \x7d\n        .confirmation-box \x7b\n            background-color: #f9f9f9;\n            border-left: 4px solid rgb(255, 222, 6);\n            padding: 20px;\n            margin-bottom: 25px;\n        \x7d\n        .confirmation-box h2 \x7b\n            color: #092158;\n            font-size: 18px;\n            margin-bottom: 10px;\n        \x7d\n        .service-details \x7b\n            background-color: #f5f8ff;\n            border-radius: 8px;\n            padding: 20px;\n            margin: 25px 0;\n        \x7d\n        .detail-row \x7b\n            display: flex;\n            margin-bottom: 12px;\n            flex-wrap: wrap;\n        \x7d\n        .detail-label \x7b\n            width: 130px;\n            font-weight: bold;\n            color: #092158;\n        \x7d\n        .detail-value \x7b\n            flex: 1;\n            color: #333;\n        \x7d\n        .contact-info \x7b\n            background-color: #092158;\n            color: white;\n            padding: 15px;\n            border-radius: 8px;\n            margin: 20px 0;\n            text-align: center;\n        \x7d\n        .contact-info a \x7b\n            color: rgb(255, 222, 6);\n            text-decoration: none;\n            font-weight: bold;\n        \x7d\n        .footer \x7b\n            background-color: #092158;\n            padding: 20px;\n            text-align: center;\n        \x7d\n        .footer p \x7b\n            margin: 5px 0;\n            font-size: 14px;\n            color: rgb(255, 255, 253);\n        \x7d\n        .footer .highlight \x7b\n            color: rgb(255, 222, 6);\n        \x7d\n        \n        .status-badge \x7b\n            display: inline-block;\n            background-color: #28a745;\n            color: white;\n            padding: 5px 15px;\n            border-radius: 50px;\n            font-weight: bold;\n            font-size: 14px;\n            margin: 10px 0;\n        \x7d\n        \n        /* Responsive adjustments */\n        @media screen and (max-width: 600px) \x7b\n            .wrapper \x7b\n                width: 100%;\n                padding: 10px;\n            \x7d\n            .content \x7b\n                padding: 20px;\n            \x7d\n            .detail-row \x7b\n                flex-direction: column;\n                margin-bottom: 15px;\n            \x7d\n            .detail-label \x7b\n                width: 100%;\n                margin-bottom: 5px;\n            \x7d\n        \x7d\n    </style>\n</head>\n<body>\n    <div class=\"wrapper\">\n        <div class=\"container\">\n            <!-- Header -->\n            <div class=\"header\">\n                <h1>MAINE DRAIN BUSTERS</h1>\n                <p>Service Request Confirmation</p>\n            </div>\n            \n            <!-- Content -->\n            <div class=\"content\">\n                <p style=\"margin-bottom: 20px; font-size: 16px;\">Dear <strong>"

/-- Literal segment 1 of the createConfirmationEmail template. -/
def cf1 : String := "</strong>,</p>\n                \n                <div class=\"confirmation-box\">\n                    <h2>✓ Service Request Successfully Received</h2>\n                    <p>Thank you for choosing Maine Drain Busters for your plumbing and drainage needs.</p>\n                    <div class=\"status-badge\">CONFIRMED</div>\n                </div>\n                \n                <p>We\x27ve recorded your service request with the following details:</p>\n                \n                <div class=\"service-details\">\n                    <div class=\"detail-row\">\n                        <div class=\"detail-label\">Service Type:</div>\n                        <div class=\"detail-value\"><strong>"

/-- Literal segment 2 of the createConfirmationEmail template. -/
def cf2 : String := "</strong></div>\n                    </div>\n                    <div class=\"detail-row\">\n                        <div class=\"detail-label\">Contact Phone:</div>\n                        <div class=\"detail-value\"><strong>"

/-- Literal segment 3 of the createConfirmationEmail template. -/
def cf3 : String := "</strong></div>\n                    </div>\n                    <div class=\"detail-row\">\n                        <div class=\"detail-label\">Preferred Date:</div>\n                        <div class=\"detail-value\"><strong>"

/-- Literal segment 4 of the createConfirmationEmail template. -/
def cf4 : String := "</strong></div>\n                    </div>\n                    <div class=\"detail-row\">\n                        <div class=\"detail-label\">Preferred Time:</div>\n                        <div class=\"detail-value\"><strong>"

/-- Literal segment 5 of the createConfirmationEmail template. -/
def cf5 : String := "</strong></div>\n                    </div>\n                    <div class=\"detail-row\">\n                        <div class=\"detail-label\">Submitted:</div>\n                        <div class=\"detail-value\"><strong>"

/-- Literal segment 6 of the createConfirmationEmail template. -/
def cf6 : String := "</strong></div>\n                    </div>\n                </div>\n                \n                <p><strong>Next Steps:</strong> Our experienced team will contact you within <strong>24 hours</strong> to confirm your appointment details.</p>\n                \n                <div class=\"contact-info\">\n                    <p>Have questions? Reach us at:</p>\n                    <p><a href=\"mailto:support@mainedrainbusters.com\">support@mainedrainbusters.com</a></p>\n                    <p>Call: <strong>(207) 409-9772</strong></p>\n                </div>\n                \n                <div class=\"no-reply-warning\">\n                    ⚠️ DO NOT REPLY TO THIS EMAIL - THIS IS AN AUTOMATED MESSAGE\n                </div>\n                \n                <p style=\"text-align: center; margin-top: 20px;\">Thank you for trusting Maine\x27s premier plumbing professionals!</p>\n            </div>\n            \n            <!-- Footer -->\n            <div class=\"footer\">\n                <p class=\"highlight\">Professional Plumbing & Drainage Services</p>\n                <p>Serving Greater Portland, Maine & Surrounding Areas</p>\n                <p>© "

/-- Literal segment 7 of the createConfirmationEmail template. -/
def cf7 : String := " Maine Drain Busters</p>\n            </div>\n        </div>\n    </div>\n</body>\n</html>"

/-- The renderer `createConfirmationEmail` (src/index.js line 764): the client
confirmation body for a service request; `formattedSubmissionTime` is
`new Date(submissionTime || Date.now()).toLocaleString()`. -/
def createConfirmationEmail (f : ConfirmArgs) (now : JsDate) : String :=
  cf0 ++
  jsStr f.name ++
  cf1 ++
  jsOrS f.serviceType ("General Service") ++
  cf2 ++
  jsOrS f.phone ("Not provided") ++
  cf3 ++
  jsOrS f.preferredDate ("Flexible") ++
  cf4 ++
  jsOrS f.preferredTime ("Flexible") ++
  cf5 ++
  (jsOrDate f.submissionTime now).localeString ++
  cf6 ++
  toString now.year ++
  cf7

/-- Literal segment 0 of the createSupportConfirmation template. -/
def sf0 : String := "<!DOCTYPE html>\n<html lang=\"en\">\n<head>\n    <meta charset=\"UTF-8\">\n    <meta name=\"viewport\" content=\"width=device-width, initial-scale=1.0\">\n    <title>Support Request Confirmation</title>\n    <style>\n        /* Base Styles */\n        * \x7b\n            margin: 0;\n            padding: 0;\n            box-sizing: border-box;\n        \x7d\n        body \x7b\n            font-family: -apple-system, BlinkMacSystemFont, \x27Segoe UI\x27, Roboto, Helvetica, Arial, sans-serif;\n            background-color: #f4f4f4;\n            line-height: 1.5;\n            color: #333333;\n        \x7d\n        /* Responsive Styles */\n        .wrapper \x7b\n            max-width: 600px;\n            margin: 0 auto;\n        \x7d\n        .container \x7b\n            background-color: #ffffff;\n            border-radius: 8px;\n            overflow: hidden;\n            box-shadow: 0 4px 10px rgba(0,0,0,0.1);\n        \x7d\n        .header \x7b\n            background-color: #092158;\n            padding: 25px 20px;\n            text-align: center;\n            border-bottom: 4px solid rgb(255, 222, 6);\n        \x7d\n        .header h1 \x7b\n            color: rgb(255, 255, 253);\n            font-size: 22px;\n            margin: 0;\n        \x7d\n        .header p \x7b\n            color: rgb(255, 222, 6);\n            font-size: 16px;\n            margin: 5px 0 0;\n        \x7d\n        .content \x7b\n            padding: 30px;\n        \x7d\n        .confirmation-box \x7b\n            background-color: #f9f9f9;\n            border-left: 4px solid #28a745;\n            padding: 20px;\n            margin-bottom: 25px;\n        \x7d\n        .confirmation-box h2 \x7b\n            color: #28a745;\n            font-size: 18px;\n            margin-bottom: 10px;\n        \x7d\n        .support-details \x7b\n            background-color: #f5f8ff;\n            border-radius: 8px;\n            padding: 20px;\n            margin: 25px 0;\n        \x7d\n        .detail-row \x7b\n            display: flex;\n            margin-bottom: 12px;\n            flex-wrap: wrap;\n        \x7d\n        .detail-label \x7b\n            width: 130px;\n            font-weight: bold;\n            color: #092158;\n        \x7d\n        .detail-value \x7b\n            flex: 1;\n            color: #333;\n        \x7d\n        .message-preview \x7b\n            background-color: #f8f9fa;\n            border: 1px solid #e9ecef;\n            border-radius: 8px;\n            padding: 15px;\n            margin: 20px 0;\n            font-style: italic;\n            color: #495057;\n        \x7d\n        .no-reply-warning \x7b\n            background-color: #dc3545;\n            color: white;\n            padding: 10px;\n            text-align: center;\n            border-radius: 4px 4px 0 0;\n            margin: 15px 0 0 0;\n            font-size: 14px;\n            font-weight: bold;\n        \x7d\n        .footer \x7b\n            background-color: #092158;\n            padding: 20px;\n            text-align: center;\n        \x7d\n        .footer p \x7b\n            margin: 5px 0;\n            font-size: 14px;\n            color: rgb(255, 255, 253);\n        \x7d\n        .footer .highlight \x7b\n            color: rgb(255, 222, 6);\n        \x7d\n        \n        .status-badge \x7b\n            display: inline-block;\n            background-color: #28a745;\n            color: white;\n            padding: 5px 15px;\n            border-radius: 50px;\n            font-weight: bold;\n            font-size: 14px;\n            margin: 10px 0;\n        \x7d\n        \n        /* Responsive adjustments */\n        @media screen and (max-width: 600px) \x7b\n            .wrapper \x7b\n                width: 100%;\n                padding: 10px;\n            \x7d\n            .content \x7b\n                padding: 20px;\n            \x7d\n            .detail-row \x7b\n                flex-direction: column;\n                margin-bottom: 15px;\n            \x7d\n            .detail-label \x7b\n                width: 100%;\n                margin-bottom: 5px;\n            \x7d\n        \x7d\n    </style>\n</head>\n<body>\n    <div class=\"wrapper\">\n        <div class=\"container\">\n            <!-- Header -->\n            <div class=\"header\">\n                <h1>MAINE DRAIN BUSTERS</h1>\n                <p>Support Request Confirmation</p>\n            </div>\n            \n            <!-- Content -->\n            <div class=\"content\">\n                <p style=\"margin-bottom: 20px; font-size: 16px;\">Dear <strong>"

/-- Literal segment 1 of the createSupportConfirmation template. -/
def sf1 : String := "</strong>,</p>\n                \n                <div class=\"confirmation-box\">\n                    <h2>✓ Your Support Request Has Been Received</h2>\n                    <p>Thank you for contacting Maine Drain Busters. <Strong>We\x27ll Get Back to You Within 24 Hours</Strong></p>\n                    <div class=\"status-badge\">RECEIVED</div>\n                </div>\n                \n                <div class=\"support-details\">\n                    <div class=\"detail-row\">\n                        <div class=\"detail-label\">Subject:</div>\n                        <div class=\"detail-value\"><strong>"

/-- Literal segment 2 of the createSupportConfirmation template. -/
def sf2 : String := "</strong></div>\n                    </div>\n                    <div class=\"detail-row\">\n                        <div class=\"detail-label\">Contact Email:</div>\n                        <div class=\"detail-value\"><strong>"

/-- Literal segment 3 of the createSupportConfirmation template. -/
def sf3 : String := "</strong></div>\n                    </div>\n                    <div class=\"detail-row\">\n                        <div class=\"detail-label\">Contact Phone:</div>\n                        <div class=\"detail-value\"><strong>"

/-- Literal segment 4 of the createSupportConfirmation template. -/
def sf4 : String := "</strong></div>\n                    </div>\n                    <div class=\"detail-row\">\n                        <div class=\"detail-label\">Submitted:</div>\n                        <div class=\"detail-value\"><strong>"

/-- Literal segment 5 of the createSupportConfirmation template. -/
def sf5 : String := "</strong></div>\n                    </div>\n                </div>\n                \n                <div class=\"message-preview\">\n                    <p><strong>Your message:</strong></p>\n                    <p>"

/-- Literal segment 6 of the createSupportConfirmation template. -/
def sf6 : String := "</p>\n                </div>\n                \n                <div class=\"no-reply-warning\">\n                    ⚠️ DO NOT REPLY TO THIS EMAIL - THIS IS AN AUTOMATED MESSAGE\n                </div>\n            </div>\n            \n            <!-- Footer -->\n            <div class=\"footer\">\n                <p class=\"highlight\">Professional Plumbing & Drainage Services</p>\n                <p>Serving Greater Portland, Maine & Surrounding Areas</p>\n                <p>© "

/-- Literal segment 7 of the createSupportConfirmation template. -/
def sf7 : String := " Maine Drain Busters</p>\n            </div>\n        </div>\n    </div>\n</body>\n</html>"

/-- The renderer `createSupportConfirmation` (src/index.js line 1256): the client
confirmation body for a support request. -/
def createSupportConfirmation (f : SupConfArgs) (now : JsDate) : String :=
  sf0 ++
  jsStr f.name ++
  sf1 ++
  jsOrS f.subject ("General Support") ++
  sf2 ++
  jsStr f.email ++
  sf3 ++
  jsOrS f.phone ("Not provided") ++
  sf4 ++
  (jsOrDate f.submissionTime now).localeString ++
  sf5 ++
  jsStr f.message ++
  sf6 ++
  toString now.year ++
  sf7

/-! ## Mail dispatcher (src/index.js lines 977-1006)

The nodemailer transport is the external collaborator: it is modelled
as a function from the mail options to an outcome, either a message id
or a thrown error carrying the provider's message.  The opaque error
identifier `Date.now().toString(36) + Math.random().toString(36).substr(2)`
is always a nonempty string; each handler run receives the identifiers
its two sends would generate as parameters `eid1`, `eid2`. -/

/-- Outcome of `transporter.sendMail`: resolves with a message id or
throws an error whose `message` is the provider text. -/
inductive TransportOutcome where
  | ok (messageId : String)
  | err (message : String)
deriving DecidableEq, Repr

/-- The `mailOptions` object handed to `transporter.sendMail`. -/
structure MailOptions where
  fromAddr : String
  toAddr : String
  subject : String
  html : Option String
  text : Option String
  headers : List (String × String)
deriving DecidableEq, Repr

/-- The argument object of one `sendEmail({to, subject, content,
isHTML, headers})` invocation: one mail-dispatch call. -/
structure SendArgs where
  toAddr : String
  subject : String
  content : String
  isHTML : Bool
  headers : List (String × String)
deriving DecidableEq, Repr

/-- Per-send result (`{success, messageId}` or `{success, errorId}`). -/
structure DispatchResult where
  success : Bool
  messageId : Option String
  errorId : Option String
deriving DecidableEq, Repr

/-- Required configuration (environment) of src/index.js. -/
structure Env where
  SUPPORT_ACCOUNT : String
  SMTP_USER : String
deriving DecidableEq, Repr

/-- Building the `mailOptions` inside `sendEmail`: fixed authenticated
`from`, sanitized subject, `html`/`text` chosen by `isHTML`. -/
def mkMailOptions (env : Env) (a : SendArgs) : MailOptions :=
  { fromAddr := "\"Maine Drain Busters\" <" ++ env.SMTP_USER ++ ">"
    toAddr := a.toAddr
    subject := sanitizeInput a.subject
    html := if a.isHTML then some a.content else none
    text := if a.isHTML then none else some a.content
    headers := a.headers }

/-- The dispatcher `sendEmail` (src/index.js line 978): validates the recipient,
delegates to the transport, and catches every error — an invalid
address or a transport error both land in the catch block, which
returns `{success:false, errorId}` with the freshly generated opaque
identifier `eid` and never rethrows. -/
def sendEmail (env : Env) (transport : MailOptions → TransportOutcome)
    (eid : String) (a : SendArgs) : DispatchResult :=
  if validateEmail a.toAddr then
    match transport (mkMailOptions env a) with
    | .ok mid => { success := true, messageId := some mid, errorId := none }
    | .err _ => { success := false, messageId := none, errorId := some eid }
  else { success := false, messageId := none, errorId := some eid }

/-! ## The `/send-email` service-request handler
(src/index.js lines 1009-1150) -/

/-- One field-level failure reported by `validationResult(req)`. -/
structure FieldError where
  path : String
  msg : String
deriving DecidableEq, Repr

/-- The JSON body of a handler response (only the fields this code
ever sets). -/
structure JsonResponse where
  success : Bool
  message : Option String
  error : Option String
  details : Option (List FieldError)
  errorIds : Option (List String)
deriving DecidableEq, Repr

/-- A handler run: HTTP status, JSON body, and the list of
`sendEmail` invocations it issued, in order. -/
structure HandlerOutput where
  status : Nat
  resp : JsonResponse
  calls : List SendArgs
deriving DecidableEq, Repr

/-- The request body of `/send-email` after `serviceRequestValidation`
passed: fields the middleware requires are present, the optional ones
(`phone`, `urgency`, `preferredDate`, `preferredTime`, `claimDeal`,
`dealAmount`) may be absent. -/
structure ServiceBody where
  firstName : String
  lastName : String
  email : String
  phone : Option String
  address : String
  city : String
  state : String
  zipCode : String
  serviceType : String
  urgency : Option String
  description : String
  preferredDate : Option String
  preferredTime : Option String
  claimDeal : Option Bool
  dealAmount : Option String
deriving DecidableEq, Repr

/-- JS `headers: safeReplyTo ? { 'Reply-To': safeReplyTo } : {}`
(JS string truthiness: absent or empty gives the empty map). -/
def jsHeadersOf (o : Option String) : List (String × String) :=
  match o with
  | none => []
  | some s => if s = "" then [] else [(("Reply-To"), s)]

/-- The combined name: `` `${firstName} ${lastName}`.trim() `` over the
sanitized fields. -/
def serviceName (b : ServiceBody) : String :=
  jsTrim (sanitizeInput b.firstName ++ " " ++ sanitizeInput b.lastName)

/-- JS `fullAddress`: sanitized address parts, `filter(Boolean).join(', ')`. -/
def serviceFullAddress (b : ServiceBody) : String :=
  joinTruthy [sanitizeInput b.address, sanitizeInput b.city,
              sanitizeInput b.state, sanitizeInput b.zipCode]

/-- The sanitized client email: `clientEmail.toLowerCase()`. -/
def serviceClientEmail (b : ServiceBody) : String := jsToLower b.email

/-- The value `safeReplyTo` (src/index.js line 1082): the Reply-To value
`` `${validateName(name)} <${sanitizedData.clientEmail}>` `` guarded by
`validateEmail`. -/
def serviceSafeReplyTo (b : ServiceBody) : Option String :=
  if validateEmail (serviceClientEmail b) then
    some (validateName (serviceName b) ++ " <" ++ serviceClientEmail b ++ ">")
  else none

/-- The first `sendEmail` invocation of `/send-email`: company
notification to the fixed `SUPPORT_ACCOUNT`. -/
def serviceCall1 (env : Env) (b : ServiceBody) (now : JsDate) : SendArgs :=
  { toAddr := env.SUPPORT_ACCOUNT
    subject := "Service Request from " ++ serviceName b
    content := createCompanyEmailTemplate
      { name := some (serviceName b)
        email := some (serviceClientEmail b)
        phone := Option.map sanitizeInput b.phone
        address := some (serviceFullAddress b)
        serviceType := some (sanitizeInput b.serviceType)
        urgency := Option.map sanitizeInput b.urgency
        message := some (sanitizeInput b.description)
        preferredDate := Option.map sanitizeInput b.preferredDate
        preferredTime := Option.map sanitizeInput b.preferredTime
        discount_claimed := b.claimDeal
        dealAmount := b.dealAmount } now
    isHTML := true
    headers := jsHeadersOf (serviceSafeReplyTo b) }

/-- The second `sendEmail` invocation of `/send-email`: confirmation
to the submitter's sanitized address, no custom headers. -/
def serviceCall2 (_env : Env) (b : ServiceBody) (now : JsDate) : SendArgs :=
  { toAddr := serviceClientEmail b
    subject := "Service Request Confirmation"
    content := createConfirmationEmail
      { name := some (serviceName b)
        serviceType := some (sanitizeInput b.serviceType)
        phone := Option.map sanitizeInput b.phone
        preferredDate := Option.map sanitizeInput b.preferredDate
        preferredTime := Option.map sanitizeInput b.preferredTime
        submissionTime := some now } now
    isHTML := true
    headers := [] }

/-- The `/send-email` handler (src/index.js line 1028).  `errors` is
the outcome of the express-validator middleware (`validationResult`):
nonempty means 400 with the field-level details and no dispatch;
otherwise both sends are attempted unconditionally and aggregated into
one HTTP 200 response whose `errorIds` array keeps the error ids of
the failed sends (`filter(Boolean)`). -/
def sendEmailHandler (env : Env) (b : ServiceBody) (errors : List FieldError)
    (transport : MailOptions → TransportOutcome) (now : JsDate)
    (eid1 eid2 : String) : HandlerOutput :=
  if errors.isEmpty then
    let r1 := sendEmail env transport eid1 (serviceCall1 env b now)
    let r2 := sendEmail env transport eid2 (serviceCall2 env b now)
    let both := r1.success && r2.success
    { status := 200
      resp :=
        { success := both
          message := some (if both then "Both emails sent successfully"
                           else "Partial email failure")
          error := none
          details := none
          errorIds :=
            if both then none
            else some (filterBoolean
              [if !r1.success then r1.errorId else none,
               if !r2.success then r2.errorId else none]) }
      calls := [serviceCall1 env b now, serviceCall2 env b now] }
  else
    { status := 400
      resp := { success := false, message := none,
                error := some ("Invalid input data"),
                details := some errors, errorIds := none }
      calls := [] }

/-! ## The `/support-email` handler (src/index.js lines 1152-1253) -/

/-- The request body of `/support-email` after
`supportRequestValidation` passed. -/
structure SupportBody where
  name : String
  email : String
  phone : Option String
  subject : Option String
  message : String
deriving DecidableEq, Repr

/-- The sanitized support email: `email.toLowerCase()`. -/
def supportEmailLower (b : SupportBody) : String := jsToLower b.email

/-- The value `safeReplyTo` of the support handler (src/index.js line 1191). -/
def supportSafeReplyTo (b : SupportBody) : Option String :=
  if validateEmail (supportEmailLower b) then
    some (validateName (sanitizeInput b.name) ++ " <" ++ supportEmailLower b ++ ">")
  else none

/-- JS `` `${...}${sanitizedData.subject ? ` - ${...}` : ''}` ``:
the optional subject suffix of the company support mail. -/
def supportSubjectSuffix (o : Option String) : String :=
  match o with
  | none => ""
  | some s => if s = "" then "" else " - " ++ s

/-- First `sendEmail` invocation of `/support-email`. -/
def supportCall1 (env : Env) (b : SupportBody) (now : JsDate) : SendArgs :=
  { toAddr := env.SUPPORT_ACCOUNT
    subject := "Support Request from " ++ sanitizeInput b.name ++
      supportSubjectSuffix (Option.map sanitizeInput b.subject)
    content := createCompanySupportTemplate
      { name := some (sanitizeInput b.name)
        email := some (supportEmailLower b)
        phone := Option.map sanitizeInput b.phone
        message := some (sanitizeInput b.message)
        subject := Option.map sanitizeInput b.subject } now
    isHTML := true
    headers := jsHeadersOf (supportSafeReplyTo b) }

/-- Second `sendEmail` invocation of `/support-email`. -/
def supportCall2 (_env : Env) (b : SupportBody) (now : JsDate) : SendArgs :=
  { toAddr := supportEmailLower b
    subject := "Support Request Received"
    content := createSupportConfirmation
      { name := some (sanitizeInput b.name)
        email := some (supportEmailLower b)
        phone := Option.map sanitizeInput b.phone
        subject := Option.map sanitizeInput b.subject
        message := some (sanitizeInput b.message)
        submissionTime := some now } now
    isHTML := true
    headers := [] }

/-- The `/support-email` handler (src/index.js line 1161), same shape
as `/send-email`. -/
def supportEmailHandler (env : Env) (b : SupportBody) (errors : List FieldError)
    (transport : MailOptions → TransportOutcome) (now : JsDate)
    (eid1 eid2 : String) : HandlerOutput :=
  if errors.isEmpty then
    let r1 := sendEmail env transport eid1 (supportCall1 env b now)
    let r2 := sendEmail env transport eid2 (supportCall2 env b now)
    let both := r1.success && r2.success
    { status := 200
      resp :=
        { success := both
          message := some (if both then "Support request submitted successfully"
                           else "Partial email failure")
          error := none
          details := none
          errorIds :=
            if both then none
            else some (filterBoolean
              [if !r1.success then r1.errorId else none,
               if !r2.success then r2.errorId else none]) }
      calls := [supportCall1 env b now, supportCall2 env b now] }
  else
    { status := 400
      resp := { success := false, message := none,
                error := some ("Invalid input data"),
                details := some errors, errorIds := none }
      calls := [] }

/-! ## The EmailJS variants (src/unnamed/part_003 and part_002)

`part_003` is the nodemailer-free `/api/send-email` handler: it
destructures the body, builds the template parameters and calls
`emailjs.send` with no validation at all; on success it responds 200,
and its catch block responds 500 with `{success:false,
error: error.message}` — the raw provider message. -/

/-- Environment of the EmailJS variant. -/
structure Env3 where
  EMAILJS_DEFAULT_REPLY_TO : String
deriving DecidableEq, Repr

/-- Request body of `/api/send-email` (no validation, so every field
may be absent). -/
structure ApiBody where
  name : Option String
  email : Option String
  phone : Option String
  address : Option String
  message : Option String
deriving DecidableEq, Repr

/-- The `templateParams` object handed to `emailjs.send`. -/
structure TemplateParams where
  to_name : String
  from_name : Option String
  from_email : String
  from_phone : String
  from_address : String
  message : Option String
  reply_to : String
deriving DecidableEq, Repr

/-- Outcome of `emailjs.send`: a response, or a thrown error whose
`message` is the provider text. -/
inductive EmailJsOutcome where
  | ok (response : String)
  | err (message : String)
deriving DecidableEq, Repr

/-- Response and dispatch record of the `/api/send-email` handler. -/
structure ApiOutput where
  status : Nat
  success : Bool
  error : Option String
  response : Option String
  calls : List TemplateParams
deriving DecidableEq, Repr

/-- The object `templateParams` of src/unnamed/part_003 lines 24-32. -/
def apiTemplateParams (env : Env3) (b : ApiBody) : TemplateParams :=
  { to_name := "Maine Drain Busters"
    from_name := b.name
    from_email := jsOrS b.email ("No email provided")
    from_phone := jsOrS b.phone ("No phone provided")
    from_address := jsOrS b.address ("No address provided")
    message := b.message
    reply_to := jsOrS b.email env.EMAILJS_DEFAULT_REPLY_TO }

/-- The `/api/send-email` handler of src/unnamed/part_003 lines
20-45: always attempts exactly one `emailjs.send`, 200 on success,
500 with the raw `error.message` on failure; there is no 400 path. -/
def apiSendEmailHandler (env : Env3) (b : ApiBody)
    (transport : TemplateParams → EmailJsOutcome) : ApiOutput :=
  let p := apiTemplateParams env b
  match transport p with
  | .ok resp =>
    { status := 200, success := true, error := none,
      response := some resp, calls := [p] }
  | .err msg =>
    { status := 500, success := false, error := some msg,
      response := none, calls := [p] }

/-! ## The `/api/prepare-email` handler (src/unnamed/part_002 lines
25-79): validates the presence of `name`, `email`, `message` and, on
success, only returns EmailJS configuration objects — it contains no
transport invocation at all, so its dispatch-call list is empty by
construction. -/

/-- JS truthiness of a possibly absent string. -/
def jsTruthyStr (o : Option String) : Bool :=
  match o with
  | none => false
  | some s => !(s = "")

/-- Request body of `/api/prepare-email`. -/
structure PrepareBody where
  name : Option String
  email : Option String
  phone : Option String
  message : Option String
  address : Option String
  discount_claimed : Option String
deriving DecidableEq, Repr

/-- Response of `/api/prepare-email` with its (always empty) list of
mail-dispatch calls. -/
structure PrepareOutput where
  status : Nat
  success : Bool
  message : Option String
  calls : List Unit
deriving DecidableEq, Repr

/-- The `/api/prepare-email` handler of src/unnamed/part_002:
`if (!name || !email || !message)` responds 400, otherwise 200 with
the two template configurations; no send happens in either branch. -/
def prepareEmailHandler (b : PrepareBody) : PrepareOutput :=
  if !jsTruthyStr b.name || !jsTruthyStr b.email || !jsTruthyStr b.message then
    { status := 400, success := false,
      message := some ("Missing required fields: name, email, message"),
      calls := [] }
  else
    { status := 200, success := true, message := none, calls := [] }


/-! ## Concrete fixtures used by witnesses and counterexamples -/

/-- Fixture environment. -/
def wEnv : Env :=
  { SUPPORT_ACCOUNT := "support@mainedrainbusters.com"
    SMTP_USER := "mailer@mainedrainbusters.com" }

/-- Fixture clock reading. -/
def wNow : JsDate :=
  { isoString := "2025-06-01T12:00:00.000Z"
    localeString := "6/1/2025, 12:00:00 PM"
    year := 2025
    epochMillis := 1748779200000 }

/-- Fixture valid service-request body. -/
def wBody : ServiceBody :=
  { firstName := "John", lastName := "Doe", email := "John@Example.com"
    phone := none, address := "1 Main St", city := "Portland"
    state := "ME", zipCode := "04101", serviceType := "Drain Cleaning"
    urgency := none, description := "Need help with a clogged drain"
    preferredDate := none, preferredTime := none
    claimDeal := none, dealAmount := none }

/-- Fixture valid support-request body. -/
def wSupportBody : SupportBody :=
  { name := "John Doe", email := "John@Example.com", phone := none
    subject := none, message := "Need help with my invoice" }

/-- Transport that accepts every mail. -/
def wOkTransport : MailOptions → TransportOutcome := fun _ => .ok ("msg-1")

/-- Transport that accepts mail to the business address and fails the
client-confirmation leg. -/
def wFailClient : MailOptions → TransportOutcome := fun m =>
  if m.toAddr = ("support@mainedrainbusters.com") then .ok ("msg-1")
  else .err ("451 4.3.2 service unavailable")

/-- Two transports failing with different provider messages. -/
def wErrT1 : MailOptions → TransportOutcome := fun _ => .err ("Invalid login: 535")

/-- Second failing transport, different provider text. -/
def wErrT2 : MailOptions → TransportOutcome := fun _ => .err ("Connection timeout")

/-- Fixture dispatch-call arguments. -/
def wSendArgs : SendArgs :=
  { toAddr := "client@example.com", subject := "Hi", content := "Body"
    isHTML := true, headers := [] }

/-- Fixture validation failure list. -/
def wErrs : List FieldError := [{ path := "email", msg := "Invalid value" }]

/-- Fixture prepare-email body missing `name`. -/
def wPrepNoName : PrepareBody :=
  { name := none, email := some ("a@b.c"), phone := none
    message := some ("hi"), address := none, discount_claimed := none }

/-- Fixture EmailJS environment. -/
def wEnv3 : Env3 := { EMAILJS_DEFAULT_REPLY_TO := "noreply@mainedrainbusters.com" }

/-- Fixture EmailJS body with the required `name` missing. -/
def wApiBodyNoName : ApiBody :=
  { name := none, email := some ("john@example.com"), phone := none
    address := none, message := some ("Need help") }

/-- Fixture EmailJS body with everything present. -/
def wApiBodyFull : ApiBody :=
  { name := some ("John Doe"), email := some ("john@example.com")
    phone := none, address := none, message := some ("Need help") }

/-- EmailJS transport that succeeds. -/
def wOkE : TemplateParams → EmailJsOutcome := fun _ => .ok ("OK")

/-- EmailJS transport that throws a provider error. -/
def wErrE : TemplateParams → EmailJsOutcome :=
  fun _ => .err ("535 5.7.8 Authentication credentials invalid")

/-- Fixture body carrying the spec's header-injection attempt. -/
def wEvilBody : ServiceBody :=
  { wBody with
    firstName := "Evil\r\nBcc: attacker@x.com"
    lastName := "X"
    email := "evil@x.com" }


/-- Fixture template arguments with `phone` missing. -/
def wCompanyArgs : CompanyArgs :=
  { name := some ("John Doe"), email := some ("john@example.com"), phone := none
    address := some ("1 Main St"), serviceType := none, urgency := none
    message := some ("Need help"), preferredDate := none, preferredTime := none
    discount_claimed := none, dealAmount := none }


/-- Fixture confirmation-template arguments. -/
def wConfirmArgs : ConfirmArgs :=
  { name := some ("John Doe"), serviceType := none, phone := none
    preferredDate := none, preferredTime := none, submissionTime := some wNow }

/-- Clock reading with the same rendered projections as `wNow` but a
different raw epoch value. -/
def wNowSameRender : JsDate := { wNow with epochMillis := 1748779200123 }

/-- First clock reading for the variance counterexample. -/
def wNowA : JsDate :=
  { isoString := "2025-12-31T23:59:59.000Z"
    localeString := "12/31/2025, 11:59:59 PM"
    year := 2025
    epochMillis := 1767225599000 }

/-- Second clock reading: same ISO date and year, later wall-clock
rendering. -/
def wNowB : JsDate :=
  { isoString := "2025-12-31T23:59:59.000Z"
    localeString := "6/1/2025, 1:00:00 AM"
    year := 2025
    epochMillis := 1767229200000 }


/-! ## Helper lemmas about the dispatcher -/

/-- The dispatcher `sendEmail` is total: every run returns either a success result
carrying a message id, or the failure result carrying exactly the
fresh opaque id — it never propagates the provider error. -/
theorem sendEmail_shape (env : Env) (transport : MailOptions → TransportOutcome)
    (eid : String) (a : SendArgs) :
    ((sendEmail env transport eid a).success = true ∧
     (sendEmail env transport eid a).messageId.isSome = true ∧
     (sendEmail env transport eid a).errorId = none) ∨
    sendEmail env transport eid a =
      { success := false, messageId := none, errorId := some eid } := by
  unfold sendEmail
  by_cases hv : validateEmail a.toAddr = true
  · rw [if_pos hv]
    cases transport (mkMailOptions env a) with
    | ok mid => exact Or.inl ⟨rfl, rfl, rfl⟩
    | err m => exact Or.inr rfl
  · rw [if_neg hv]
    exact Or.inr rfl

/-- A failed `sendEmail` run is exactly the opaque failure record. -/
theorem sendEmail_fail (env : Env) (transport : MailOptions → TransportOutcome)
    (eid : String) (a : SendArgs)
    (h : (sendEmail env transport eid a).success = false) :
    sendEmail env transport eid a =
      { success := false, messageId := none, errorId := some eid } := by
  rcases sendEmail_shape env transport eid a with ⟨h1, _, _⟩ | h1
  · rw [h1] at h; cases h
  · exact h1

/-- The reply-to string always contains the angle brackets, so it is
never empty (JS truthiness keeps the header). -/
theorem replyTo_ne_empty (a c : String) : a ++ " <" ++ c ++ ">" ≠ "" := by
  intro h
  have hl := congrArg String.length h
  have h2 : (" <" : String).length = 2 := rfl
  have h3 : (">" : String).length = 1 := rfl
  have h0 : ("" : String).length = 0 := rfl
  rw [String.length_append, String.length_append, String.length_append,
    h2, h3, h0] at hl
  omega

/-! ## C1 -/

/-- C1: for every `/send-email` submission that passes validation, the
handler issues exactly two mail-dispatch calls: the first to the fixed
configured `SUPPORT_ACCOUNT` of the environment (independently of the
request body, so never a caller-supplied address) and the second to
the submitter's sanitized address — never zero and never a third. -/
theorem serviceHandlerDispatchTargets (env : Env) (b : ServiceBody)
    (errors : List FieldError) (transport : MailOptions → TransportOutcome)
    (now : JsDate) (eid1 eid2 : String) (h : errors = []) :
    (sendEmailHandler env b errors transport now eid1 eid2).calls.map SendArgs.toAddr =
      [env.SUPPORT_ACCOUNT, serviceClientEmail b] := by
  subst h
  simp [sendEmailHandler, serviceCall1, serviceCall2]

/-- Witness for C1 at a concrete valid request. -/
theorem serviceHandlerDispatchTargets_witness :
    (sendEmailHandler wEnv wBody [] wOkTransport wNow ("e1") ("e2")).calls.map
        SendArgs.toAddr =
      [wEnv.SUPPORT_ACCOUNT, serviceClientEmail wBody] :=
  serviceHandlerDispatchTargets wEnv wBody [] wOkTransport wNow ("e1") ("e2") rfl

/-! ## C2 -/

/-- C2: for every request on which both dispatches were attempted, the
handler responds HTTP 200 with `success` equal to the conjunction of
the two per-send success flags; when the business send succeeds and
the client-confirmation send fails, the 200 response carries
`success:false` and exactly the one error id of the failed send (the
generated ids are nonempty strings, reflected by `eid2 ≠ ""`). -/
theorem serviceHandlerAggregation (env : Env) (b : ServiceBody)
    (errors : List FieldError) (transport : MailOptions → TransportOutcome)
    (now : JsDate) (eid1 eid2 : String) (h : errors = []) (he : eid2 ≠ "") :
    (sendEmailHandler env b errors transport now eid1 eid2).status = 200 ∧
    (sendEmailHandler env b errors transport now eid1 eid2).resp.success =
      ((sendEmail env transport eid1 (serviceCall1 env b now)).success &&
       (sendEmail env transport eid2 (serviceCall2 env b now)).success) ∧
    ((sendEmail env transport eid1 (serviceCall1 env b now)).success = true →
     (sendEmail env transport eid2 (serviceCall2 env b now)).success = false →
     (sendEmailHandler env b errors transport now eid1 eid2).resp.success = false ∧
     (sendEmailHandler env b errors transport now eid1 eid2).resp.errorIds =
       some [eid2]) := by
  subst h
  refine ⟨by simp [sendEmailHandler], by simp [sendEmailHandler], ?_⟩
  intro h1 h2
  have hr2 := sendEmail_fail env transport eid2 (serviceCall2 env b now) h2
  constructor
  · simp [sendEmailHandler, h1, h2]
  · simp [sendEmailHandler, h1, h2, hr2, filterBoolean, he]

/-- Witness for C2: business send succeeds, client send fails. -/
theorem serviceHandlerAggregation_witness :
    (sendEmailHandler wEnv wBody [] wFailClient wNow ("e1") ("e2")).status = 200 ∧
    (sendEmailHandler wEnv wBody [] wFailClient wNow ("e1") ("e2")).resp.success =
      false ∧
    (sendEmailHandler wEnv wBody [] wFailClient wNow ("e1") ("e2")).resp.errorIds =
      some [("e2")] := by
  have h := serviceHandlerAggregation wEnv wBody [] wFailClient wNow ("e1") ("e2")
    rfl (by decide)
  exact ⟨h.1, (h.2.2 (by decide) (by decide)).1, (h.2.2 (by decide) (by decide)).2⟩

/-! ## C5 -/

/-- C5: the two dispatch calls of one request are independent and
`sendEmail` never propagates an exception: every run returns a
`DispatchResult` of one of the two shapes, and for every transport
behaviour a valid request still attempts both configured calls and
reports the conjunction of their outcomes. -/
theorem sendEmailTotalAndIndependent (env : Env)
    (transport : MailOptions → TransportOutcome) (eid : String) (a : SendArgs)
    (b : ServiceBody) (errors : List FieldError) (now : JsDate)
    (eid1 eid2 : String) (h : errors = []) :
    (((sendEmail env transport eid a).success = true ∧
      (sendEmail env transport eid a).messageId.isSome = true ∧
      (sendEmail env transport eid a).errorId = none) ∨
     sendEmail env transport eid a =
       { success := false, messageId := none, errorId := some eid }) ∧
    (sendEmailHandler env b errors transport now eid1 eid2).calls =
      [serviceCall1 env b now, serviceCall2 env b now] ∧
    (sendEmailHandler env b errors transport now eid1 eid2).resp.success =
      ((sendEmail env transport eid1 (serviceCall1 env b now)).success &&
       (sendEmail env transport eid2 (serviceCall2 env b now)).success) := by
  subst h
  exact ⟨sendEmail_shape env transport eid a, by simp [sendEmailHandler],
    by simp [sendEmailHandler]⟩

/-- Witness for C5: a transport that fails the business leg still
yields a total result and both calls. -/
theorem sendEmailTotalAndIndependent_witness :
    (((sendEmail wEnv wErrT1 ("e9") wSendArgs).success = true ∧
      (sendEmail wEnv wErrT1 ("e9") wSendArgs).messageId.isSome = true ∧
      (sendEmail wEnv wErrT1 ("e9") wSendArgs).errorId = none) ∨
     sendEmail wEnv wErrT1 ("e9") wSendArgs =
       { success := false, messageId := none, errorId := some ("e9") }) ∧
    (sendEmailHandler wEnv wBody [] wErrT1 wNow ("e1") ("e2")).calls =
      [serviceCall1 wEnv wBody wNow, serviceCall2 wEnv wBody wNow] ∧
    (sendEmailHandler wEnv wBody [] wErrT1 wNow ("e1") ("e2")).resp.success =
      ((sendEmail wEnv wErrT1 ("e1") (serviceCall1 wEnv wBody wNow)).success &&
       (sendEmail wEnv wErrT1 ("e2") (serviceCall2 wEnv wBody wNow)).success) :=
  sendEmailTotalAndIndependent wEnv wErrT1 ("e9") wSendArgs wBody [] wNow
    ("e1") ("e2") rfl

/-! ## C3 -/

/-- C3 counterexample: the `/api/send-email` handler of
src/unnamed/part_003 performs no validation — a submission with the
required `name` missing is not answered with 400 and still issues one
mail-dispatch call. -/
theorem apiSendEmailSkipsValidation_cex :
    (apiSendEmailHandler wEnv3 wApiBodyNoName wOkE).status = 200 ∧
    (apiSendEmailHandler wEnv3 wApiBodyNoName wOkE).calls.length = 1 :=
  ⟨rfl, rfl⟩

/-- C3 amended: in the handlers that do validate — `/send-email` and
`/support-email` of src/index.js and `/api/prepare-email` of
src/unnamed/part_002 — a validation failure (nonempty middleware error
list, resp. a missing required field) yields HTTP 400 with the
field-level details and zero mail-dispatch calls. -/
theorem validationGateNoDispatch (env : Env) (b : ServiceBody) (sb : SupportBody)
    (errors : List FieldError) (transport : MailOptions → TransportOutcome)
    (now : JsDate) (eid1 eid2 : String) (pb : PrepareBody)
    (h : errors ≠ [])
    (hp : jsTruthyStr pb.name = false ∨ jsTruthyStr pb.email = false ∨
          jsTruthyStr pb.message = false) :
    (sendEmailHandler env b errors transport now eid1 eid2).status = 400 ∧
    (sendEmailHandler env b errors transport now eid1 eid2).resp.details =
      some errors ∧
    (sendEmailHandler env b errors transport now eid1 eid2).calls = [] ∧
    (supportEmailHandler env sb errors transport now eid1 eid2).status = 400 ∧
    (supportEmailHandler env sb errors transport now eid1 eid2).calls = [] ∧
    (prepareEmailHandler pb).status = 400 ∧
    (prepareEmailHandler pb).calls = [] := by
  have hne : errors.isEmpty = false := by
    cases errors with
    | nil => exact absurd rfl h
    | cons e es => rfl
  refine ⟨by simp [sendEmailHandler, hne], by simp [sendEmailHandler, hne],
    by simp [sendEmailHandler, hne], by simp [supportEmailHandler, hne],
    by simp [supportEmailHandler, hne], ?_, ?_⟩ <;>
    rcases hp with hp | hp | hp <;> simp [prepareEmailHandler, hp]

/-- Witness for C3 as amended: concrete failing validation. -/
theorem validationGateNoDispatch_witness :
    (sendEmailHandler wEnv wBody wErrs wOkTransport wNow ("e1") ("e2")).status =
      400 ∧
    (sendEmailHandler wEnv wBody wErrs wOkTransport wNow ("e1") ("e2")).calls =
      [] ∧
    (prepareEmailHandler wPrepNoName).status = 400 ∧
    (prepareEmailHandler wPrepNoName).calls = [] := by
  have h := validationGateNoDispatch wEnv wBody wSupportBody wErrs wOkTransport
    wNow ("e1") ("e2") wPrepNoName (by decide) (Or.inl (by decide))
  exact ⟨h.1, h.2.2.1, h.2.2.2.2.2.1, h.2.2.2.2.2.2⟩

/-! ## C4 -/

/-- C4 counterexample: in the EmailJS variant (src/unnamed/part_003,
same catch shape as part_001), a transport error is answered with HTTP
500 whose body carries the raw provider `error.message` — not an
opaque error id. -/
theorem apiSendEmailLeaksProviderError_cex :
    (apiSendEmailHandler wEnv3 wApiBodyFull wErrE).error =
      some ("535 5.7.8 Authentication credentials invalid") ∧
    (apiSendEmailHandler wEnv3 wApiBodyFull wErrE).status = 500 :=
  ⟨rfl, rfl⟩

/-- C4 amended: in src/index.js the dispatcher `sendEmail` answers a
transport error with exactly `{success:false, errorId}` carrying the
fresh opaque id, and the result is independent of the provider error
text: two transports failing with different messages produce the same
`DispatchResult`, so no provider detail can reach the HTTP response. -/
theorem dispatcherOpaqueErrorId (env : Env)
    (t1 t2 : MailOptions → TransportOutcome) (eid : String) (a : SendArgs)
    (m1 m2 : String)
    (h1 : t1 (mkMailOptions env a) = TransportOutcome.err m1)
    (h2 : t2 (mkMailOptions env a) = TransportOutcome.err m2) :
    sendEmail env t1 eid a =
      { success := false, messageId := none, errorId := some eid } ∧
    sendEmail env t1 eid a = sendEmail env t2 eid a := by
  unfold sendEmail
  by_cases hv : validateEmail a.toAddr <;> simp [hv, h1, h2]

/-- Witness for C4 as amended: two concrete provider failures. -/
theorem dispatcherOpaqueErrorId_witness :
    sendEmail wEnv wErrT1 ("e9") wSendArgs =
      { success := false, messageId := none, errorId := some ("e9") } ∧
    sendEmail wEnv wErrT1 ("e9") wSendArgs = sendEmail wEnv wErrT2 ("e9") wSendArgs :=
  dispatcherOpaqueErrorId wEnv wErrT1 wErrT2 ("e9") wSendArgs
    ("Invalid login: 535") ("Connection timeout") rfl rfl

/-! ## C10 -/

/-- C10: a Reply-To header is attached to the business-notification
mail iff the sanitized submitter email passes `validateEmail`; when it
does not, the mail is still dispatched with an empty headers map (and
the handler still makes its two calls) — for both `/send-email` and
`/support-email`. -/
theorem replyToAttachmentIff (env : Env) (b : ServiceBody) (sb : SupportBody)
    (transport : MailOptions → TransportOutcome) (now : JsDate)
    (eid1 eid2 : String) :
    (((serviceCall1 env b now).headers.lookup ("Reply-To")).isSome =
       validateEmail (serviceClientEmail b)) ∧
    (validateEmail (serviceClientEmail b) = false →
      (serviceCall1 env b now).headers = [] ∧
      (sendEmailHandler env b [] transport now eid1 eid2).calls.length = 2) ∧
    (((supportCall1 env sb now).headers.lookup ("Reply-To")).isSome =
       validateEmail (supportEmailLower sb)) ∧
    (validateEmail (supportEmailLower sb) = false →
      (supportCall1 env sb now).headers = [] ∧
      (supportEmailHandler env sb [] transport now eid1 eid2).calls.length = 2) := by
  refine ⟨?_, fun hv => ⟨?_, ?_⟩, ?_, fun hv => ⟨?_, ?_⟩⟩
  · by_cases hv : validateEmail (serviceClientEmail b)
    · simp [serviceCall1, jsHeadersOf, serviceSafeReplyTo, hv,
        replyTo_ne_empty (validateName (serviceName b)) (serviceClientEmail b)]
    · simp [serviceCall1, jsHeadersOf, serviceSafeReplyTo, hv]
  · simp [serviceCall1, jsHeadersOf, serviceSafeReplyTo, hv]
  · simp [sendEmailHandler]
  · by_cases hv : validateEmail (supportEmailLower sb)
    · simp [supportCall1, jsHeadersOf, supportSafeReplyTo, hv,
        replyTo_ne_empty (validateName (sanitizeInput sb.name)) (supportEmailLower sb)]
    · simp [supportCall1, jsHeadersOf, supportSafeReplyTo, hv]
  · simp [supportCall1, jsHeadersOf, supportSafeReplyTo, hv]
  · simp [supportEmailHandler]

/-- Witness for C10: a submitter address failing `validateEmail`
yields no Reply-To, an empty headers map and still two dispatches. -/
theorem replyToAttachmentIff_witness :
    (serviceCall1 wEnv { wBody with email := "not-an-email" } wNow).headers = [] ∧
    (sendEmailHandler wEnv { wBody with email := "not-an-email" } [] wOkTransport
        wNow ("e1") ("e2")).calls.length = 2 ∧
    (supportCall1 wEnv { wSupportBody with email := "not-an-email" } wNow).headers =
      [] ∧
    (supportEmailHandler wEnv { wSupportBody with email := "not-an-email" } []
        wOkTransport wNow ("e1") ("e2")).calls.length = 2 := by
  have h := replyToAttachmentIff wEnv { wBody with email := "not-an-email" }
    { wSupportBody with email := "not-an-email" } wOkTransport wNow ("e1") ("e2")
  exact ⟨(h.2.1 (by decide)).1, (h.2.1 (by decide)).2,
    (h.2.2.2 (by decide)).1, (h.2.2.2 (by decide)).2⟩

/-! ## C6: header-injection freedom of the Reply-To value -/

/-- A member of the left-trimmed list is a member of the list. -/
theorem mem_ltrimL {c : Char} {l : List Char} (h : c ∈ ltrimL l) : c ∈ l :=
  (List.dropWhile_sublist isJsSpace).subset h

/-- A member of the right-trimmed list is a member of the list. -/
theorem mem_rtrimL {c : Char} {l : List Char} (h : c ∈ rtrimL l) : c ∈ l := by
  unfold rtrimL at h
  rw [List.mem_reverse] at h
  have := (List.dropWhile_sublist isJsSpace).subset h
  rwa [List.mem_reverse] at this

/-- A member of the trimmed list is a member of the list. -/
theorem mem_jsTrimL {c : Char} {l : List Char} (h : c ∈ jsTrimL l) : c ∈ l :=
  mem_ltrimL (mem_rtrimL h)

/-- Every character of a `validateName` result survived the strip:
none of CR, LF, colon, semicolon, comma occurs in the output. -/
theorem validateName_stripped (s : String) (c : Char)
    (h : c ∈ (validateName s).data) : isNameStripped c = false := by
  have h2 : c ∈ s.data.filter (fun c => !isNameStripped c) := mem_jsTrimL h
  have h3 := (List.mem_filter.1 h2).2
  simpa using h3

/-- If `l.dropWhile p` starts with `c` then `p c = false`. -/
theorem dropWhile_head_false {α : Type} {p : α → Bool} {l : List α} {c : α}
    {cs : List α} (h : l.dropWhile p = c :: cs) : p c = false := by
  induction l with
  | nil => cases h
  | cons a t ih =>
    rw [List.dropWhile_cons] at h
    by_cases hp : p a = true
    · rw [if_pos hp] at h; exact ih h
    · rw [if_neg hp] at h
      cases h
      simpa using hp

/-- A string accepted by `validateEmail` contains no JS whitespace (in
particular no CR and no LF). -/
theorem validateEmail_chars (s : String) (h : validateEmail s = true) :
    ∀ c ∈ s.data, isJsSpace c = false := by
  intro c hc
  unfold validateEmail at h
  rcases hsplit : s.data.dropWhile (fun c => !(c == '@')) with _ | ⟨d, dom⟩
  · rw [hsplit] at h; cases h
  · rw [hsplit] at h
    simp only [Bool.and_eq_true, List.all_eq_true] at h
    obtain ⟨⟨⟨-, hpre⟩, hdom⟩, -⟩ := h
    have hd : d = '@' := by simpa using dropWhile_head_false hsplit
    have hdata : s.data.takeWhile (fun c => !(c == '@')) ++ (d :: dom) = s.data := by
      rw [← hsplit]; exact List.takeWhile_append_dropWhile _ _
    rw [← hdata] at hc
    rcases List.mem_append.1 hc with h1 | h2
    · simpa using hpre c h1
    · rcases List.mem_cons.1 h2 with h2 | h2
      · subst h2; subst hd; rfl
      · have h4 := hdom c h2
        simp only [Bool.and_eq_true] at h4
        simpa using h4.1

/-- Characters of a string-append come from one of the parts. -/
theorem mem_string_append {c : Char} {s t : String} (h : c ∈ (s ++ t).data) :
    c ∈ s.data ∨ c ∈ t.data := by
  rw [String.data_append] at h
  exact List.mem_append.1 h

/-- C6: `validateName` removes every CR and LF, and consequently the
Reply-To header value attached by the `/send-email` handler — built as
`validateName(name) <email>` with `email` accepted by `validateEmail`
— never contains a CR or LF character, for every name (including
`"Evil\r\nBcc: attacker@x.com"`) and every request body. -/
theorem replyToHeaderNoCRLF (n : String) (env : Env) (b : ServiceBody)
    (now : JsDate) (k v : String)
    (hmem : (k, v) ∈ (serviceCall1 env b now).headers) :
    ('\r' ∉ (validateName n).data ∧ '\n' ∉ (validateName n).data) ∧
    ('\r' ∉ v.data ∧ '\n' ∉ v.data) := by
  have hname : ∀ m : String, '\r' ∉ (validateName m).data ∧
      '\n' ∉ (validateName m).data := by
    intro m
    constructor <;> intro hcc <;> cases validateName_stripped m _ hcc
  refine ⟨hname n, ?_⟩
  by_cases hv : validateEmail (serviceClientEmail b) = true
  · have hval : (serviceCall1 env b now).headers =
        [(("Reply-To"),
          validateName (serviceName b) ++ " <" ++ serviceClientEmail b ++ ">")] := by
      simp [serviceCall1, jsHeadersOf, serviceSafeReplyTo, hv,
        replyTo_ne_empty (validateName (serviceName b)) (serviceClientEmail b)]
    rw [hval] at hmem
    have hveq : v = validateName (serviceName b) ++ " <" ++
        serviceClientEmail b ++ ">" :=
      congrArg Prod.snd (List.mem_singleton.1 hmem)
    subst hveq
    have hemail := validateEmail_chars _ hv
    constructor <;> intro hcc
    · rcases mem_string_append hcc with hcc | hcc
      · rcases mem_string_append hcc with hcc | hcc
        · rcases mem_string_append hcc with hcc | hcc
          · cases (hname (serviceName b)).1 hcc
          · exact absurd hcc (by decide)
        · cases hemail _ hcc
      · exact absurd hcc (by decide)
    · rcases mem_string_append hcc with hcc | hcc
      · rcases mem_string_append hcc with hcc | hcc
        · rcases mem_string_append hcc with hcc | hcc
          · cases (hname (serviceName b)).2 hcc
          · exact absurd hcc (by decide)
        · cases hemail _ hcc
      · exact absurd hcc (by decide)
  · have hval : (serviceCall1 env b now).headers = [] := by
      simp [serviceCall1, jsHeadersOf, serviceSafeReplyTo, hv]
    rw [hval] at hmem
    cases hmem

/-- Witness for C6: the spec's injection attempt, sanitized. -/
theorem replyToHeaderNoCRLF_witness :
    ('\r' ∉ (validateName ("Evil\r\nBcc: attacker@x.com")).data ∧
     '\n' ∉ (validateName ("Evil\r\nBcc: attacker@x.com")).data) ∧
    ('\r' ∉ ("EvilBcc attacker@x.com X <evil@x.com>").data ∧
     '\n' ∉ ("EvilBcc attacker@x.com X <evil@x.com>").data) :=
  replyToHeaderNoCRLF ("Evil\r\nBcc: attacker@x.com") wEnv wEvilBody wNow
    ("Reply-To") ("EvilBcc attacker@x.com X <evil@x.com>") (by decide)


/-! ## C8: placeholder substitution for missing optional fields -/

/-- C8 amended: the renderers are total (never throw) and substitute
the explicit placeholder text for missing `serviceType`, `urgency`,
`preferredDate`, `preferredTime` — and for a missing `phone` in the
client confirmation — but a missing `phone` in the business
notification template is interpolated raw and renders as the literal
text `undefined` (the `cp7`/`cp8` segments are the Phone Number table
cell), not as a placeholder. -/
theorem templatesPlaceholders (nm em ad msg da : Option String)
    (st now : JsDate) :
    createConfirmationEmail
        { name := nm, serviceType := none, phone := none, preferredDate := none,
          preferredTime := none, submissionTime := some st } now =
      cf0 ++ jsStr nm ++ cf1 ++ ("General Service") ++ cf2 ++ ("Not provided") ++
      cf3 ++ ("Flexible") ++ cf4 ++ ("Flexible") ++ cf5 ++ st.localeString ++
      cf6 ++ toString now.year ++ cf7 ∧
    createCompanyEmailTemplate
        { name := nm, email := em, phone := none, address := ad,
          serviceType := none, urgency := none, message := msg,
          preferredDate := none, preferredTime := none,
          discount_claimed := none, dealAmount := da } now =
      cp0 ++ jsStr nm ++ cp1 ++ ("status-low") ++ cp2 ++ ("General Service") ++
      cp3 ++ ("Flexible date") ++ cp4 ++ ("Flexible time") ++ cp5 ++
      ("Standard") ++ cp6 ++ jsStr nm ++ cp7 ++ ("undefined") ++ cp8 ++
      jsStr em ++ cp9 ++ jsStr ad ++ cp10 ++ ("General Service") ++ cp11 ++
      ("Standard") ++ cp12 ++ ("Not specified") ++ cp13 ++ ("Not specified") ++
      cp14 ++ ("Not claimed") ++ cp15 ++ jsStr msg ++ cp16 ++ isoSlug now ++
      cp17 ++ now.localeString ++ cp18 ++ toString now.year ++ cp19 := by
  constructor <;>
    simp [createConfirmationEmail, createCompanyEmailTemplate, jsOrS, jsStr,
      urgencyClass, discountSlot, jsOrDate, jsTruthyBool]

/-- C8 counterexample: at a concrete submission with `phone` missing,
the business notification renders the literal text `undefined` in the
Phone Number cell (first conjunct), and in particular the rendered
body differs from the one that would carry the placeholder
`"Not provided"` there (second conjunct) — refuting "substitutes
explicit placeholder text for each missing optional field, never
leaving an undefined value". -/
theorem companyTemplateUndefinedPhone_cex :
    createCompanyEmailTemplate wCompanyArgs wNow =
      cp0 ++ ("John Doe") ++ cp1 ++ ("status-low") ++ cp2 ++ ("General Service") ++
      cp3 ++ ("Flexible date") ++ cp4 ++ ("Flexible time") ++ cp5 ++ ("Standard") ++
      cp6 ++ ("John Doe") ++ cp7 ++ ("undefined") ++ cp8 ++ ("john@example.com") ++
      cp9 ++ ("1 Main St") ++ cp10 ++ ("General Service") ++ cp11 ++ ("Standard") ++
      cp12 ++ ("Not specified") ++ cp13 ++ ("Not specified") ++ cp14 ++
      ("Not claimed") ++ cp15 ++ ("Need help") ++ cp16 ++ isoSlug wNow ++ cp17 ++
      wNow.localeString ++ cp18 ++ toString wNow.year ++ cp19 ∧
    createCompanyEmailTemplate wCompanyArgs wNow ≠
      cp0 ++ ("John Doe") ++ cp1 ++ ("status-low") ++ cp2 ++ ("General Service") ++
      cp3 ++ ("Flexible date") ++ cp4 ++ ("Flexible time") ++ cp5 ++ ("Standard") ++
      cp6 ++ ("John Doe") ++ cp7 ++ ("Not provided") ++ cp8 ++ ("john@example.com") ++
      cp9 ++ ("1 Main St") ++ cp10 ++ ("General Service") ++ cp11 ++ ("Standard") ++
      cp12 ++ ("Not specified") ++ cp13 ++ ("Not specified") ++ cp14 ++
      ("Not claimed") ++ cp15 ++ ("Need help") ++ cp16 ++ isoSlug wNow ++ cp17 ++
      wNow.localeString ++ cp18 ++ toString wNow.year ++ cp19 := by
  have heq : createCompanyEmailTemplate wCompanyArgs wNow =
      cp0 ++ ("John Doe") ++ cp1 ++ ("status-low") ++ cp2 ++ ("General Service") ++
      cp3 ++ ("Flexible date") ++ cp4 ++ ("Flexible time") ++ cp5 ++ ("Standard") ++
      cp6 ++ ("John Doe") ++ cp7 ++ ("undefined") ++ cp8 ++ ("john@example.com") ++
      cp9 ++ ("1 Main St") ++ cp10 ++ ("General Service") ++ cp11 ++ ("Standard") ++
      cp12 ++ ("Not specified") ++ cp13 ++ ("Not specified") ++ cp14 ++
      ("Not claimed") ++ cp15 ++ ("Need help") ++ cp16 ++ isoSlug wNow ++ cp17 ++
      wNow.localeString ++ cp18 ++ toString wNow.year ++ cp19 := by
    simp [createCompanyEmailTemplate, wCompanyArgs, jsOrS, jsStr, urgencyClass,
      discountSlot, jsTruthyBool]
  refine ⟨heq, ?_⟩
  rw [heq]
  intro h
  have hl := congrArg String.length h
  have e1 : (("undefined" : String)).length = 9 := rfl
  have e2 : (("Not provided" : String)).length = 12 := rfl
  simp only [String.length_append, e1, e2] at hl
  omega

/-! ## C9: clock dependence of the renderers -/

/-- C9 counterexample: the business template reads the wall clock at
each call (`new Date()` inside the template), so two renders of the
same Submission — with the request timestamp playing no role, since
the template takes none — differ as soon as the two clock readings
render differently. -/
theorem companyTemplateClockVariance_cex :
    createCompanyEmailTemplate wCompanyArgs wNowA ≠
      createCompanyEmailTemplate wCompanyArgs wNowB := by
  intro h
  have hl := congrArg String.length h
  have e1 : (("12/31/2025, 11:59:59 PM" : String)).length = 23 := rfl
  have e2 : (("6/1/2025, 1:00:00 AM" : String)).length = 20 := rfl
  simp only [createCompanyEmailTemplate, wNowA, wNowB, isoSlug,
    String.length_append, e1, e2] at hl
  omega

/-- C9 amended: the renderers are pure functions of the submission and
the clock readings they use — two calls with the same submission agree
as soon as the clock readings agree on the rendered projections (ISO
date, locale string, year), independently of the raw epoch value. -/
theorem templatesClockDeterminism (f : CompanyArgs) (g : ConfirmArgs)
    (d1 d2 : JsDate) (hIso : d1.isoString = d2.isoString)
    (hLoc : d1.localeString = d2.localeString) (hYear : d1.year = d2.year) :
    createCompanyEmailTemplate f d1 = createCompanyEmailTemplate f d2 ∧
    createConfirmationEmail g d1 = createConfirmationEmail g d2 := by
  constructor
  · simp [createCompanyEmailTemplate, isoSlug, hIso, hLoc, hYear]
  · cases hsub : g.submissionTime with
    | some st => simp [createConfirmationEmail, jsOrDate, hsub, hYear]
    | none => simp [createConfirmationEmail, jsOrDate, hsub, hLoc, hYear]

/-- Witness for C9 as amended: same rendered projections, different
raw epoch value, identical bodies. -/
theorem templatesClockDeterminism_witness :
    createCompanyEmailTemplate wCompanyArgs wNow =
      createCompanyEmailTemplate wCompanyArgs wNowSameRender ∧
    createConfirmationEmail wConfirmArgs wNow =
      createConfirmationEmail wConfirmArgs wNowSameRender :=
  templatesClockDeterminism wCompanyArgs wConfirmArgs wNow wNowSameRender
    rfl rfl rfl

/-! ## C7: the sanitization pipeline is not idempotent -/

/-- C7 counterexample: `escape` rewrites the ampersand on every run,
so the pipeline moves on its own output: one pass over `"&"` gives
`"&amp"` (escape to the amp entity, DOMPurify round-trip, strip of the
semicolon by `validateName`), a second pass gives `"&ampamp"`. -/
theorem sanitizePipelineNotIdem_cex :
    sanitizePipeline (sanitizePipeline ("&")) ≠ sanitizePipeline ("&") := by
  decide

/-- A character outside the escape set passes `escChar` unchanged. -/
theorem escChar_plain {c : Char} (h : escTarget c = false) : escChar c = [c] := by
  unfold escTarget escTargets at h
  simp only [List.contains_eq_any_beq, List.any_cons, List.any_nil, Bool.or_false,
    Bool.or_eq_false_iff, beq_eq_false_iff_ne, ne_eq] at h
  obtain ⟨h1, h2, h3, h4, h5, h6, h7, h8⟩ := h
  unfold escChar
  rw [if_neg h1, if_neg h2, if_neg h3, if_neg h4, if_neg h5, if_neg h6,
    if_neg h7, if_neg h8]

/-- Escaping is the identity on strings free of its targets. -/
theorem flatMap_escChar_plain {l : List Char}
    (h : ∀ c ∈ l, escTarget c = false) : l.flatMap escChar = l := by
  induction l with
  | nil => rfl
  | cons a t ih =>
    rw [List.flatMap_cons, escChar_plain (h a (List.mem_cons_self a t)),
      ih (fun c hc => h c (List.mem_cons_of_mem a hc))]
    rfl

/-- String-level version. -/
theorem escapeV_plain (s : String) (h : ∀ c ∈ s.data, escTarget c = false) :
    escapeV s = s := by
  unfold escapeV
  rw [flatMap_escChar_plain h]

/-- Newline normalization on a list headed by a non-CR character. -/
theorem normalizeCR_cons_ne {c : Char} {l : List Char} (h : ¬ c = '\r') :
    normalizeCR (c :: l) = c :: normalizeCR l := by
  cases l <;> simp [normalizeCR, h]

/-- Newline normalization is the identity without CR. -/
theorem normalizeCR_plain {l : List Char} (h : ∀ c ∈ l, ¬ c = '\r') :
    normalizeCR l = l := by
  induction l with
  | nil => rfl
  | cons a t ih =>
    rw [normalizeCR_cons_ne (h a (List.mem_cons_self a t)),
      ih (fun c hc => h c (List.mem_cons_of_mem a hc))]

/-- Reference decoding is the identity without ampersands. -/
theorem decodeRefsF_plain (n : Nat) {l : List Char}
    (h : ∀ c ∈ l, ¬ c = '&') : decodeRefsF n l = l := by
  induction n generalizing l with
  | zero => cases l <;> rfl
  | succ n ih =>
    cases l with
    | nil => rfl
    | cons a t =>
      rw [decodeRefsF, if_neg (h a (List.mem_cons_self a t)),
        ih (fun c hc => h c (List.mem_cons_of_mem a hc))]

/-- List-entry version of the `decodeRefs` identity. -/
theorem decodeRefs_plain {l : List Char} (h : ∀ c ∈ l, ¬ c = '&') :
    decodeRefs l = l := decodeRefsF_plain l.length h

/-- A character outside the serializer set passes `encChar` unchanged. -/
theorem encChar_plain {c : Char} (h : encTarget c = false) : encChar c = [c] := by
  unfold encTarget encTargets at h
  simp only [List.contains_eq_any_beq, List.any_cons, List.any_nil, Bool.or_false,
    Bool.or_eq_false_iff, beq_eq_false_iff_ne, ne_eq] at h
  obtain ⟨h1, h2, h3, h4⟩ := h
  unfold encChar
  rw [if_neg h1, if_neg h2, if_neg h3, if_neg h4]

/-- The serializer is the identity on lists free of its targets. -/
theorem flatMap_encChar_plain {l : List Char}
    (h : ∀ c ∈ l, encTarget c = false) : l.flatMap encChar = l := by
  induction l with
  | nil => rfl
  | cons a t ih =>
    rw [List.flatMap_cons, encChar_plain (h a (List.mem_cons_self a t)),
      ih (fun c hc => h c (List.mem_cons_of_mem a hc))]
    rfl

/-- Splitting a sensitivity bound into the per-stage bounds. -/
theorem sensitive_split {c : Char} (h : sanitizerSensitive c = false) :
    escTarget c = false ∧ ¬ c = '&' ∧ ¬ c = '\r' ∧ encTarget c = false := by
  unfold sanitizerSensitive at h
  unfold escTarget encTarget escTargets encTargets
  simp only [List.contains_eq_any_beq, List.any_cons, List.any_nil, Bool.or_false,
    Bool.or_eq_false_iff, beq_eq_false_iff_ne, ne_eq] at h ⊢
  obtain ⟨h1, h2, h3, h4, h5, h6, h7, h8, h9, h10⟩ := h
  exact ⟨⟨h1, h2, h3, h4, h5, h6, h7, h8⟩, h1, h9, ⟨h1, h4, h5, h10⟩⟩

/-- The sanitizer is the identity on markup-free insensitive input. -/
theorem sanitizeInput_plain (s : String)
    (h : ∀ c ∈ s.data, sanitizerSensitive c = false) : sanitizeInput s = s := by
  unfold sanitizeInput
  rw [normalizeCR_plain (fun c hc => (sensitive_split (h c hc)).2.2.1),
    decodeRefs_plain (fun c hc => (sensitive_split (h c hc)).2.1),
    flatMap_encChar_plain (fun c hc => (sensitive_split (h c hc)).2.2.2)]

/-- Dropping twice is dropping once. -/
theorem dropWhile_dropWhile (p : Char → Bool) (l : List Char) :
    (l.dropWhile p).dropWhile p = l.dropWhile p := by
  induction l with
  | nil => rfl
  | cons a t ih =>
    rw [List.dropWhile_cons]
    by_cases hp : p a = true
    · rw [if_pos hp]; exact ih
    · rw [if_neg hp, List.dropWhile_cons, if_neg hp]

/-- The right trim is a prefix of the list. -/
theorem rtrimL_append (l : List Char) :
    rtrimL l ++ (l.reverse.takeWhile isJsSpace).reverse = l := by
  unfold rtrimL
  rw [← List.reverse_append, List.takeWhile_append_dropWhile, List.reverse_reverse]

/-- Right trim is idempotent. -/
theorem rtrimL_idem (l : List Char) : rtrimL (rtrimL l) = rtrimL l := by
  unfold rtrimL
  rw [List.reverse_reverse, dropWhile_dropWhile]

/-- A left-trimmed list stays left-trimmed after a right trim. -/
theorem ltrimL_rtrimL (l : List Char) (h : ltrimL l = l) :
    ltrimL (rtrimL l) = rtrimL l := by
  rcases hr : rtrimL l with _ | ⟨c, cs⟩
  · rfl
  · have hl : l = c :: (cs ++ (l.reverse.takeWhile isJsSpace).reverse) := by
      conv_lhs => rw [← rtrimL_append l]
      rw [hr, List.cons_append]
    have hc : isJsSpace c = false := by
      by_contra hcc
      have hcc' : isJsSpace c = true := by simpa using hcc
      have h2 : ltrimL l =
          ltrimL (cs ++ (l.reverse.takeWhile isJsSpace).reverse) := by
        conv_lhs => rw [hl]
        unfold ltrimL
        rw [List.dropWhile_cons, if_pos hcc']
      have hlen := congrArg List.length h
      rw [h2] at hlen
      unfold ltrimL at hlen
      have hle := (List.dropWhile_sublist (l := cs ++
        (l.reverse.takeWhile isJsSpace).reverse) isJsSpace).length_le
      have hX : l.length =
          (cs ++ (l.reverse.takeWhile isJsSpace).reverse).length + 1 := by
        conv_lhs => rw [hl]
        rw [List.length_cons]
      omega
    unfold ltrimL
    rw [List.dropWhile_cons, if_neg (by simp [hc])]

/-- The JS trim is idempotent. -/
theorem jsTrimL_idem (l : List Char) : jsTrimL (jsTrimL l) = jsTrimL l := by
  unfold jsTrimL
  rw [ltrimL_rtrimL (ltrimL l) (dropWhile_dropWhile isJsSpace l), rtrimL_idem]

/-- The function `validateName` written over the list representation. -/
theorem validateName_mk (s : String) :
    validateName s =
      String.mk (jsTrimL (s.data.filter (fun c => !isNameStripped c))) := rfl

/-- On insensitive input the pipeline collapses to trim-then-strip. -/
theorem sanitizePipeline_plain (t : String)
    (hsens : ∀ c ∈ t.data, sanitizerSensitive c = false) :
    sanitizePipeline t = validateName (jsTrim t) := by
  unfold sanitizePipeline
  rw [escapeV_plain (jsTrim t)
      (fun c hc => (sensitive_split (hsens c (mem_jsTrimL hc))).1),
    sanitizeInput_plain (jsTrim t) (fun c hc => hsens c (mem_jsTrimL hc))]

/-- A trimmed string is fixed by `jsTrim`. -/
theorem jsTrim_stable (t : String) (htrim : jsTrimL t.data = t.data) :
    jsTrim t = t := by
  unfold jsTrim
  rw [htrim]

/-- A trimmed string without stripped characters is fixed by
`validateName`. -/
theorem validateName_stable (t : String)
    (hkeep : ∀ c ∈ t.data, (!isNameStripped c) = true)
    (htrim : jsTrimL t.data = t.data) :
    validateName t = t := by
  rw [validateName_mk, List.filter_eq_self.2 hkeep, htrim]

/-- C7 amended: the pipeline is idempotent exactly away from the
characters its stages rewrite — for every input free of the escape
targets, the carriage return and the no-break space, applying the
pipeline to its own output returns it byte-identically.  (On other
inputs it is not: see the counterexample at `"&"`.) -/
theorem sanitizePipelineIdem (s : String)
    (h : ∀ c ∈ s.data, sanitizerSensitive c = false) :
    sanitizePipeline (sanitizePipeline s) = sanitizePipeline s := by
  have hdata : (sanitizePipeline s).data =
      jsTrimL ((jsTrimL s.data).filter (fun c => !isNameStripped c)) := by
    rw [sanitizePipeline_plain s h, validateName_mk]
    rfl
  have hPmem : ∀ c ∈ (sanitizePipeline s).data, c ∈ s.data := by
    rw [hdata]
    exact fun c hc => mem_jsTrimL (List.mem_filter.1 (mem_jsTrimL hc)).1
  have hPsens : ∀ c ∈ (sanitizePipeline s).data, sanitizerSensitive c = false :=
    fun c hc => h c (hPmem c hc)
  have hPkeep : ∀ c ∈ (sanitizePipeline s).data, (!isNameStripped c) = true := by
    rw [hdata]
    exact fun c hc => (List.mem_filter.1 (mem_jsTrimL hc)).2
  have hPtrim : jsTrimL (sanitizePipeline s).data = (sanitizePipeline s).data := by
    rw [hdata]
    exact jsTrimL_idem _
  rw [sanitizePipeline_plain _ hPsens, jsTrim_stable _ hPtrim,
    validateName_stable _ hPkeep hPtrim]

/-- Witness for C7 as amended: a plain name, stable under the
pipeline. -/
theorem sanitizePipelineIdem_witness :
    sanitizePipeline (sanitizePipeline ("John Doe")) =
      sanitizePipeline ("John Doe") :=
  sanitizePipelineIdem ("John Doe") (by decide)


end MDB
